import Mathlib

/-!
# Linux driver verification development

Shallow embedding of parts of four independent Linux drivers:

* `drivers/firmware/legacy_scpi.c`       (legacy SCPI mailbox protocol client)
* `drivers/hwmon/khadas-mcu-fan.c`       (Khadas MCU fan controller)
* `drivers/gpu/drm/meson/meson_cvbs.c`   (Meson CVBS encoder and connector)
* `drivers/clocksource/timer-sp804.c`    (SP804 timer)

C integers are embedded as `Nat` (unsigned) or `Int` (signed) with the
conversions between widths written out.  Kernel services that the drivers
call but do not define (mailbox core, completion, regmap, allocator, string
parsing, DRM core, clock and timer frameworks) are inputs of the embedding: each call takes its outcome from an
explicit environment argument.
-/

namespace LegacyScpi

/-! ## Machine integers -/

/-- Conversion of a 32-bit unsigned value to a C `int` (two's complement). -/
def u32_to_int (x : Nat) : Int :=
  if x % 2 ^ 32 < 2 ^ 31 then ((x % 2 ^ 32 : Nat) : Int) else ((x % 2 ^ 32 : Nat) : Int) - 2 ^ 32

/-! ## errno values

The numeric values come from `include/uapi/asm-generic/errno-base.h` and
`errno.h`, which the driver includes through `linux/err.h`. -/

def ENOEXEC : Int := 8
def EIO : Int := 5
def ENOMEM : Int := 12
def EACCES : Int := 13
def EBUSY : Int := 16
def EINVAL : Int := 22
def ERANGE : Int := 34
def EMSGSIZE : Int := 90
def EOPNOTSUPP : Int := 95
def ETIMEDOUT : Int := 110
/-- Largest errno an error pointer can carry (`include/linux/err.h`). -/
def MAX_ERRNO : Int := 4095

/-! ## Command word packing (lines 60-71) -/

def CMD_ID_SHIFT : Nat := 0
def CMD_ID_MASK : Nat := 0x7f
def CMD_SENDER_ID_SHIFT : Nat := 8
def CMD_SENDER_ID_MASK : Nat := 0xff
def CMD_DATA_SIZE_SHIFT : Nat := 20
def CMD_DATA_SIZE_MASK : Nat := 0x1ff

def PACK_SCPI_CMD (cmd_id sender tx_sz : Nat) : Nat :=
  (((cmd_id &&& CMD_ID_MASK) <<< CMD_ID_SHIFT) |||
   ((sender &&& CMD_SENDER_ID_MASK) <<< CMD_SENDER_ID_SHIFT)) |||
   ((tx_sz &&& CMD_DATA_SIZE_MASK) <<< CMD_DATA_SIZE_SHIFT)

def CMD_SIZE (cmd : Nat) : Nat :=
  (cmd >>> CMD_DATA_SIZE_SHIFT) &&& CMD_DATA_SIZE_MASK

def MAX_DVFS_DOMAINS : Nat := 3
def MAX_DVFS_OPPS : Nat := 16

/-- Receive timeout in milliseconds: `MAX_RX_TIMEOUT` is
`msecs_to_jiffies(30)`. -/
def MAX_RX_TIMEOUT_MS : Nat := 30

/-! ## Firmware status codes (lines 82-97) -/

def SCPI_SUCCESS : Int := 0
def SCPI_ERR_PARAM : Int := 1
def SCPI_ERR_ALIGN : Int := 2
def SCPI_ERR_SIZE : Int := 3
def SCPI_ERR_HANDLER : Int := 4
def SCPI_ERR_ACCESS : Int := 5
def SCPI_ERR_RANGE : Int := 6
def SCPI_ERR_TIMEOUT : Int := 7
def SCPI_ERR_NOMEM : Int := 8
def SCPI_ERR_PWRSTATE : Int := 9
def SCPI_ERR_SUPPORT : Int := 10
def SCPI_ERR_DEVICE : Int := 11
def SCPI_ERR_BUSY : Int := 12
def SCPI_ERR_MAX : Int := 13

/-! ## Client ids and commands (lines 99-142) -/

def SCPI_CL_NONE : Nat := 0
def SCPI_CL_CLOCKS : Nat := 1
def SCPI_CL_DVFS : Nat := 2
def SCPI_CL_POWER : Nat := 3
def SCPI_CL_THERMAL : Nat := 4

def SCPI_CMD_GET_CSS_PWR_STATE : Nat := 0x05
def SCPI_CMD_CFG_PWR_STATE_STAT : Nat := 0x06
def SCPI_CMD_GET_PWR_STATE_STAT : Nat := 0x07
def SCPI_CMD_GET_DVFS_INFO : Nat := 0x0d
def SCPI_CMD_SET_DVFS : Nat := 0x0e
def SCPI_CMD_GET_DVFS : Nat := 0x0f
def SCPI_CMD_SET_RTC : Nat := 0x11
def SCPI_CMD_GET_RTC : Nat := 0x12
def SCPI_CMD_SET_CLOCK_INDEX : Nat := 0x14
def SCPI_CMD_SET_CLOCK_VALUE : Nat := 0x15
def SCPI_CMD_GET_CLOCK_VALUE : Nat := 0x16
def SCPI_CMD_SET_PSU : Nat := 0x18
def SCPI_CMD_GET_PSU : Nat := 0x19
def SCPI_CMD_SENSOR_CFG_PERIODIC : Nat := 0x1d
def SCPI_CMD_SENSOR_CFG_BOUNDS : Nat := 0x1e

/-! ## Status translation (lines 245-267) -/

def legacy_scpi_linux_errmap : List Int :=
  [ 0,            -- SCPI_SUCCESS
    -EINVAL,      -- SCPI_ERR_PARAM
    -ENOEXEC,     -- SCPI_ERR_ALIGN
    -EMSGSIZE,    -- SCPI_ERR_SIZE
    -EINVAL,      -- SCPI_ERR_HANDLER
    -EACCES,      -- SCPI_ERR_ACCESS
    -ERANGE,      -- SCPI_ERR_RANGE
    -ETIMEDOUT,   -- SCPI_ERR_TIMEOUT
    -ENOMEM,      -- SCPI_ERR_NOMEM
    -EINVAL,      -- SCPI_ERR_PWRSTATE
    -EOPNOTSUPP,  -- SCPI_ERR_SUPPORT
    - EIO,         -- SCPI_ERR_DEVICE
    -EBUSY ]      -- SCPI_ERR_BUSY

/-- The table lookup is only reached for an index inside the table; the
default of `getD` is never used. -/
def legacy_scpi_to_linux_errno (errno : Int) : Int :=
  if errno ≥ SCPI_SUCCESS ∧ errno < SCPI_ERR_MAX then
    legacy_scpi_linux_errmap.getD errno.toNat 0
  else
    - EIO

/-! ## Channel routing (lines 294-320) -/

def high_priority_cmds : List Nat :=
  [ SCPI_CMD_GET_CSS_PWR_STATE,
    SCPI_CMD_CFG_PWR_STATE_STAT,
    SCPI_CMD_GET_PWR_STATE_STAT,
    SCPI_CMD_SET_DVFS,
    SCPI_CMD_GET_DVFS,
    SCPI_CMD_SET_RTC,
    SCPI_CMD_GET_RTC,
    SCPI_CMD_SET_CLOCK_INDEX,
    SCPI_CMD_SET_CLOCK_VALUE,
    SCPI_CMD_GET_CLOCK_VALUE,
    SCPI_CMD_SET_PSU,
    SCPI_CMD_GET_PSU,
    SCPI_CMD_SENSOR_CFG_PERIODIC,
    SCPI_CMD_SENSOR_CFG_BOUNDS ]

/-- The `for` loop of `legacy_scpi_get_chan`, run over the entries of the
table that are still to be visited. -/
def legacy_scpi_get_chan_loop (cmd : Nat) : List Nat → Nat
  | [] => 0
  | c :: rest => if cmd = c then 1 else legacy_scpi_get_chan_loop cmd rest

def legacy_scpi_get_chan (cmd : Nat) : Nat :=
  legacy_scpi_get_chan_loop cmd high_priority_cmds

/-! ## Transfer records, channels and driver state (lines 144-175) -/

/-- I/O memory, byte addressed. -/
abbrev iomem : Type := Nat → Nat

/-- The message handed to the mailbox controller on Rockchip SoCs
(lines 324-327). -/
structure rockchip_scpi_xfer where
  cmd : Nat
  rx_size : Int

/-- What `vendor_msg` points at: nothing yet, the packed command word of the
transfer itself (`&msg->cmd`), or the channel's `vendor_data` record. -/
inductive vendor_msg_ref where
  | null
  | cmd_word
  | vendor_xfer
  deriving DecidableEq, Repr

/-- Transfer record.  `tx_buf` and `rx_buf` hold the contents of the buffers
the C pointers refer to (`none` is the NULL pointer); `done` is the state of
the completion. -/
structure legacy_scpi_xfer where
  cmd : Nat
  status : Nat
  tx_buf : Option (List Nat)
  rx_buf : Option (List Nat)
  tx_len : Nat
  rx_len : Nat
  done : Bool
  vendor_msg : vendor_msg_ref
  deriving DecidableEq, Repr

/-- Channel.  `tx_payload` and `rx_payload` are addresses in I/O memory;
`xfers_lock` is true while the mutex is held; `vendor_data` is the record
allocated by the `init` hook. -/
structure legacy_scpi_chan where
  tx_payload : Nat
  rx_payload : Nat
  xfers_lock : Bool
  t : legacy_scpi_xfer
  vendor_data : rockchip_scpi_xfer

/-- Hook table.  Only the `prepare` hook is used after probing. -/
structure legacy_scpi_ops where
  prepare : Option (legacy_scpi_chan → Nat → legacy_scpi_chan × Int)

/-- Decoded operating point (`struct scpi_opp`, `linux/scpi_protocol.h`). -/
structure scpi_opp where
  freq : Nat
  m_volt : Nat
  deriving DecidableEq, Repr

/-- Decoded DVFS description (`struct scpi_dvfs_info`,
`linux/scpi_protocol.h`); `opps` holds the contents of the array the C
pointer refers to. -/
structure scpi_dvfs_info where
  count : Nat
  latency : Nat
  opps : List scpi_opp
  deriving DecidableEq, Repr

/-- Driver data.  `channels` is indexed by channel number; `num_chans` is
the number of entries the probe routine allocated.  `dvfs` is the cache of
`MAX_DVFS_DOMAINS` entries (`none` is the NULL pointer). -/
structure legacy_scpi_drvinfo where
  num_chans : Int
  channels : Nat → legacy_scpi_chan
  dvfs : List (Option scpi_dvfs_info)
  ops : Option legacy_scpi_ops

/-- Observable steps, in program order.  `mbox_send` carries the transfer
record of the channel as it is when `mbox_send_message` is called: the
message pointer handed to the mailbox core points into it, and the
`tx_prepare` callback reads the payload through it. -/
inductive scpi_event where
  | lock (chan : Nat)
  | unlock (chan : Nat)
  | xfer_write (chan : Nat)
  | prepare (chan : Nat)
  | mbox_send (chan : Nat) (t : legacy_scpi_xfer)
  | wait (chan : Nat) (timeout_ms : Nat)
  | dvfs_read (idx : Nat)
  | dvfs_write (idx : Nat)
  deriving DecidableEq, Repr

/-- Whole state the driver works on: its data, the shared I/O memory and the
steps taken so far. -/
structure scpi_state where
  info : legacy_scpi_drvinfo
  mem : iomem
  trace : List scpi_event

/-- Outcome of one mailbox exchange, decided outside the driver:
`send_ret` is the return value of `mbox_send_message`, `tx_submitted` tells
whether the mailbox core got as far as calling the client's `tx_prepare`
callback, and `reply` is `some m` when the receive interrupt fires before the
timeout, `m` being the I/O memory as the firmware left it. -/
structure mbox_env where
  send_ret : Int
  tx_submitted : Bool
  reply : Option iomem

def emit (s : scpi_state) (e : scpi_event) : scpi_state :=
  { s with trace := s.trace ++ [e] }

def set_chan (s : scpi_state) (idx : Nat) (c : legacy_scpi_chan) : scpi_state :=
  { s with info := { s.info with
      channels := fun i => if i = idx then c else s.info.channels i } }

def mutex_lock (s : scpi_state) (idx : Nat) : scpi_state :=
  emit (set_chan s idx { s.info.channels idx with xfers_lock := true }) (.lock idx)

def mutex_unlock (s : scpi_state) (idx : Nat) : scpi_state :=
  emit (set_chan s idx { s.info.channels idx with xfers_lock := false }) (.unlock idx)

/-! ## Shared memory access -/

def memcpy_toio (mem : iomem) (dst : Nat) (src : List Nat) (n : Nat) : iomem :=
  fun a => if dst ≤ a ∧ a < dst + n then src.getD (a - dst) 0 else mem a

def memcpy_fromio (dst : List Nat) (mem : iomem) (src : Nat) (n : Nat) : List Nat :=
  (List.range n).map (fun i => mem (src + i)) ++ dst.drop n

/-- Little-endian 32-bit load from I/O memory. -/
def le32_at (mem : iomem) (a : Nat) : Nat :=
  mem a % 256 + (mem (a + 1) % 256) * 2 ^ 8 + (mem (a + 2) % 256) * 2 ^ 16
    + (mem (a + 3) % 256) * 2 ^ 24

/-! ## Mailbox callbacks (lines 269-292) -/

/-- Receive callback: `mem->status` is at offset 0 of the receive area and
`mem->payload` at offset 4 (`struct legacy_scpi_shared_mem`). -/
def legacy_scpi_handle_remote_msg (s : scpi_state) (idx : Nat) : scpi_state :=
  let ch := s.info.channels idx
  let len := ch.t.rx_len
  let t1 := { ch.t with status := le32_at s.mem ch.rx_payload }
  let t2 := if len ≠ 0 then
      { t1 with rx_buf := t1.rx_buf.map (fun b => memcpy_fromio b s.mem (ch.rx_payload + 4) len) }
    else t1
  set_chan s idx { ch with t := { t2 with done := true } }

def legacy_scpi_tx_prepare (s : scpi_state) (idx : Nat) : scpi_state :=
  let ch := s.info.channels idx
  match ch.t.tx_buf with
  | some b => if ch.t.tx_len ≠ 0 then
      { s with mem := memcpy_toio s.mem ch.tx_payload b ch.t.tx_len }
    else s
  | none => s

/-! ## Rockchip hook (lines 340-352) -/

def rockchip_prepare (chan : legacy_scpi_chan) (_arg : Nat) : legacy_scpi_chan × Int :=
  let xfer : rockchip_scpi_xfer := { cmd := chan.t.cmd, rx_size := u32_to_int chan.t.rx_len }
  ({ chan with vendor_data := xfer, t := { chan.t with vendor_msg := .vendor_xfer } }, 0)

def scpi_rockchip_ops : legacy_scpi_ops := { prepare := some rockchip_prepare }

/-! ## Kernel services used by `legacy_scpi_send_message` -/

/-- Modelled from the spec: the mailbox core's `mbox_send_message` is not
part of this driver.  It may call the client's `tx_prepare` callback and
returns an `int` that is negative on failure. -/
def mbox_send_message (env : mbox_env) (s : scpi_state) (idx : Nat)
    (_msg : vendor_msg_ref) : scpi_state × Int :=
  let s1 := emit s (.mbox_send idx (s.info.channels idx).t)
  (if env.tx_submitted then legacy_scpi_tx_prepare s1 idx else s1, env.send_ret)

/-- Modelled from the spec: `wait_for_completion_timeout` is a kernel
service.  It returns 0 when the timeout expires first; otherwise the receive
callback has run on the firmware's reply and the result is positive. -/
def wait_for_completion_timeout (env : mbox_env) (s : scpi_state) (idx : Nat)
    (timeout_ms : Nat) : scpi_state × Nat :=
  let s1 := emit s (.wait idx timeout_ms)
  match env.reply with
  | none => (s1, 0)
  | some m => (legacy_scpi_handle_remote_msg { s1 with mem := m } idx, 1)

/-! ## Sending one message (lines 354-402) -/

/-- Tail of `legacy_scpi_send_message` from the call of `mbox_send_message`
on (lines 388-401). -/
def legacy_scpi_send_message_xfer (env : mbox_env) (s : scpi_state) (chan : Nat) :
    scpi_state × Int :=
  let (s1, ret) := mbox_send_message env s chan (s.info.channels chan).t.vendor_msg
  let (s2, ret) :=
    if ret < 0 then (s1, ret)
    else
      let (s2, left) := wait_for_completion_timeout env s1 chan MAX_RX_TIMEOUT_MS
      if left = 0 then (s2, -ETIMEDOUT)
      else (s2, u32_to_int (s2.info.channels chan).t.status)
  let s3 := mutex_unlock s2 chan
  (s3, if ret > 0 then legacy_scpi_to_linux_errno ret else ret)

/-- Sends one message and waits for the reply.  `cmd` is a `u8` and `arg` an
`unsigned long`; the caller's buffers are passed by content. -/
def legacy_scpi_send_message (env : mbox_env) (s : scpi_state) (cmd : Nat) (arg : Nat)
    (tx_buf : Option (List Nat)) (tx_len : Nat)
    (rx_buf : Option (List Nat)) (rx_len : Nat) : scpi_state × Int :=
  let chan := legacy_scpi_get_chan cmd % 2 ^ 8
  let s := mutex_lock s chan
  let ch := s.info.channels chan
  let msg : legacy_scpi_xfer :=
    { ch.t with
      cmd := PACK_SCPI_CMD cmd arg tx_len % 2 ^ 32
      tx_buf := tx_buf
      tx_len := tx_len
      rx_buf := rx_buf
      rx_len := rx_len
      done := false }
  let s := emit (set_chan s chan { ch with t := msg }) (.xfer_write chan)
  match s.info.ops.bind (fun o => o.prepare) with
  | some prepare =>
    let (ch1, ret) := prepare (s.info.channels chan) arg
    let s := emit (set_chan s chan ch1) (.prepare chan)
    if ret ≠ 0 then (mutex_unlock s chan, ret)
    else legacy_scpi_send_message_xfer env s chan
  | none =>
    let ch1 := s.info.channels chan
    let s := set_chan s chan { ch1 with t := { ch1.t with vendor_msg := .cmd_word } }
    legacy_scpi_send_message_xfer env s chan

/-- Contents of the caller's receive buffer after a transfer for `cmd`: the
transfer record of the channel still refers to it. -/
def rx_result (s : scpi_state) (cmd : Nat) (dflt : List Nat) : List Nat :=
  ((s.info.channels (legacy_scpi_get_chan cmd % 2 ^ 8)).t.rx_buf).getD dflt

/-! ## Wire structures (lines 177-226) -/

def cpu_to_le16 (x : Nat) : List Nat :=
  [x % 256, x / 2 ^ 8 % 256]

def cpu_to_le32 (x : Nat) : List Nat :=
  [x % 256, x / 2 ^ 8 % 256, x / 2 ^ 16 % 256, x / 2 ^ 24 % 256]

/-- Little-endian 32-bit load from a byte sequence given as a function of the
offset. -/
def le32_to_cpu (byte : Nat → Nat) (o : Nat) : Nat :=
  byte o % 256 + (byte (o + 1) % 256) * 2 ^ 8 + (byte (o + 2) % 256) * 2 ^ 16
    + (byte (o + 3) % 256) * 2 ^ 24

/-- Packed `struct clk_set_value`: `rate` at offset 0, `id` at offset 4,
`reserved` at offset 6. -/
structure clk_set_value where
  rate : List Nat
  id : List Nat
  reserved : List Nat

def clk_set_value.bytes (c : clk_set_value) : List Nat :=
  c.rate ++ c.id ++ c.reserved

/-- Size in bytes of `struct clk_set_value`. -/
def sizeof_clk_set_value : Nat := 8

/-- Size in bytes of `struct dvfs_info`: header and `MAX_DVFS_OPPS` pairs. -/
def sizeof_dvfs_info : Nat := 4 + MAX_DVFS_OPPS * 8

def DVFS_LATENCY (hdr : Nat) : Nat := hdr >>> 16
def DVFS_OPP_COUNT (hdr : Nat) : Nat := (hdr >>> 8) &&& 0xff

/-! ## Clock and DVFS operations (lines 423-499) -/

/-- Sets a clock rate.  `stat` is the uninitialised content of the local the
reply is received into.  `clk_id` is a `u16`, `rate` an `unsigned long`; members of `clk` that
the initialiser does not name are zero. -/
def legacy_scpi_clk_set_val (env : mbox_env) (s : scpi_state) (stat : List Nat)
    (clk_id : Nat) (rate : Nat) : scpi_state × Int :=
  let clk : clk_set_value :=
    { id := cpu_to_le16 (clk_id % 2 ^ 16)
      rate := cpu_to_le32 (rate % 2 ^ 32)
      reserved := [0, 0] }
  legacy_scpi_send_message env s SCPI_CMD_SET_CLOCK_VALUE SCPI_CL_CLOCKS
    (some clk.bytes) sizeof_clk_set_value (some stat) 4

/-- Result of `legacy_scpi_dvfs_get_info`: `ERR_PTR e` is the pointer value
`(void *)e`, `ptr info` a pointer to an info object with the given
contents. -/
inductive dvfs_info_ptr where
  | ERR_PTR (e : Int)
  | ptr (info : scpi_dvfs_info)
  deriving DecidableEq, Repr

/-- The test `IS_ERR` of `linux/err.h` on such a pointer. -/
def IS_ERR : dvfs_info_ptr → Bool
  | .ERR_PTR e => decide (-MAX_ERRNO ≤ e ∧ e < 0)
  | .ptr _ => false

/-- Inputs of one call of `legacy_scpi_dvfs_get_info` decided outside the
driver: the mailbox exchange, the bytes of the stack frame at each offset
from the local `buf` (uninitialised before the call), and whether each of
the two allocations succeeds. -/
structure dvfs_env where
  mbox : mbox_env
  frame : Nat → Nat
  kmalloc_ok : Bool
  kcalloc_ok : Bool

def legacy_scpi_dvfs_get_info (env : dvfs_env) (s : scpi_state) (domain : Nat) :
    scpi_state × dvfs_info_ptr :=
  if domain ≥ MAX_DVFS_DOMAINS then (s, .ERR_PTR (-EINVAL))
  else
    let s := emit s (.dvfs_read domain)
    match s.info.dvfs.getD domain none with
    | some info => (emit s (.dvfs_read domain), .ptr info)
    | none =>
      let buf0 := (List.range sizeof_dvfs_info).map env.frame
      let (s, ret) := legacy_scpi_send_message env.mbox s SCPI_CMD_GET_DVFS_INFO SCPI_CL_DVFS
        (some [domain % 2 ^ 8]) 1 (some buf0) sizeof_dvfs_info
      if ret ≠ 0 then (s, .ERR_PTR ret)
      else if !env.kmalloc_ok then (s, .ERR_PTR (-ENOMEM))
      else
        let buf := rx_result s SCPI_CMD_GET_DVFS_INFO buf0
        let byte : Nat → Nat := fun o => if o < sizeof_dvfs_info then buf.getD o 0 else env.frame o
        let header := le32_to_cpu byte 0
        let count := DVFS_OPP_COUNT header
        let latency := (DVFS_LATENCY header * 1000) % 2 ^ 32
        if !env.kcalloc_ok then (s, .ERR_PTR (-ENOMEM))
        else
          let opps := (List.range count).map (fun i =>
            ({ freq := le32_to_cpu byte (4 + 8 * i)
               m_volt := le32_to_cpu byte (4 + 8 * i + 4) } : scpi_opp))
          let info : scpi_dvfs_info := { count := count, latency := latency, opps := opps }
          let s := emit { s with info := { s.info with dvfs := s.info.dvfs.set domain (some info) } }
            (.dvfs_write domain)
          (s, .ptr info)

/-! ## A concrete driver instance -/

def xfer_init : legacy_scpi_xfer :=
  { cmd := 0, status := 0, tx_buf := none, rx_buf := none, tx_len := 0, rx_len := 0,
    done := false, vendor_msg := .null }

/-- Channel `i` as the probe routine sets it up for a shared-memory region of
`0x200` bytes at `0x1000 + i * 0x200`: the transmit area starts at half the
region. -/
def chan_init (i : Nat) : legacy_scpi_chan :=
  { rx_payload := 0x1000 + i * 0x200
    tx_payload := 0x1000 + i * 0x200 + (0x200 >>> 1)
    xfers_lock := false
    t := xfer_init
    vendor_data := { cmd := 0, rx_size := 0 } }

def state_init (ops : Option legacy_scpi_ops) : scpi_state :=
  { info := { num_chans := 2, channels := chan_init, dvfs := [none, none, none], ops := ops }
    mem := fun _ => 0
    trace := [] }

/-- The same instance with a status left in the transfer record of every
channel by an earlier transfer (`SCPI_ERR_BUSY`). -/
def state_stale_status : scpi_state :=
  { info := { num_chans := 2
              channels := fun i => { chan_init i with t := { xfer_init with status := 12 } }
              dvfs := [none, none, none]
              ops := none }
    mem := fun _ => 0
    trace := [] }

/-- I/O memory in which the status word of channel 0's receive area
(`0x1000..0x1003`) is `0x80000000` and every other byte is 0. -/
def mem_status_high_bit : iomem :=
  fun a => if a = 0x1003 then 0x80 else 0

/-- A mailbox exchange that succeeds and whose reply carries the status word
`0x80000000`. -/
def env_status_high_bit : mbox_env :=
  { send_ret := 0, tx_submitted := true, reply := some mem_status_high_bit }

/-- A mailbox exchange that succeeds and whose reply carries status 0 in a
memory that is zero everywhere. -/
def env_reply_ok : mbox_env :=
  { send_ret := 0, tx_submitted := true, reply := some (fun _ => 0) }

/-- A mailbox exchange in which the send succeeds and no reply arrives. -/
def env_no_reply : mbox_env :=
  { send_ret := 0, tx_submitted := true, reply := none }

/-- Value of a byte sequence read as a little-endian number. -/
def le_value : List Nat → Nat
  | [] => 0
  | b :: rest => b + 256 * le_value rest

/-! ## Observations on the trace -/

/-- The messages handed to the mailbox core, oldest first: channel and
transfer record. -/
def sent_msgs : List scpi_event → List (Nat × legacy_scpi_xfer)
  | [] => []
  | .mbox_send chan t :: rest => (chan, t) :: sent_msgs rest
  | _ :: rest => sent_msgs rest

/-- The indices with which the cache array `dvfs[]` was read or written,
oldest first. -/
def dvfs_accesses : List scpi_event → List Nat
  | [] => []
  | .dvfs_read idx :: rest => idx :: dvfs_accesses rest
  | .dvfs_write idx :: rest => idx :: dvfs_accesses rest
  | _ :: rest => dvfs_accesses rest

/-- The two hook configurations of `legacy_scpi_of_match`: no hook table
(Amlogic) or `scpi_rockchip_ops`. -/
def driver_ops (s : scpi_state) : Prop :=
  s.info.ops = none ∨ s.info.ops = some scpi_rockchip_ops

end LegacyScpi

namespace KhadasMcuFan

/-! ## Khadas MCU fan driver (`drivers/hwmon/khadas-mcu-fan.c`) -/

def MAX_LEVEL : Nat := 3

/-- Value of `EINVAL` in `include/uapi/asm-generic/errno-base.h`. -/
def EINVAL : Int := 22

/-- Register number declared in `include/linux/mfd/khadas-mcu.h`. -/
def KHADAS_MCU_CMD_FAN_STATUS_CTRL_REG : Nat := 0x88

/-- Driver context.  `writes` lists the `regmap_write` calls issued on
`ctx->mcu->map` so far as (register, value) pairs, oldest first; `level` is
the recorded fan level (`unsigned int`). -/
structure khadas_mcu_fan_ctx where
  writes : List (Nat × Nat)
  level : Nat
  deriving DecidableEq, Repr

/-- Conversion of a `size_t` to `ssize_t` (64-bit two's complement). -/
def size_to_ssize (x : Nat) : Int :=
  if x % 2 ^ 64 < 2 ^ 63 then ((x % 2 ^ 64 : Nat) : Int) else ((x % 2 ^ 64 : Nat) : Int) - 2 ^ 64

/-- Modelled from the spec: `regmap_write` belongs to the regmap core.  The
call is recorded and returns `ret`, the outcome of the bus access (0 on
success), which is decided outside the driver. -/
def regmap_write (ret : Int) (ctx : khadas_mcu_fan_ctx) (reg val : Nat) :
    khadas_mcu_fan_ctx × Int :=
  ({ ctx with writes := ctx.writes ++ [(reg, val)] }, ret)

def khadas_mcu_fan_set_level (wr : Int) (ctx : khadas_mcu_fan_ctx) (level : Nat) :
    khadas_mcu_fan_ctx × Int :=
  let (ctx, ret) := regmap_write wr ctx KHADAS_MCU_CMD_FAN_STATUS_CTRL_REG level
  if ret ≠ 0 then (ctx, ret)
  else ({ ctx with level := level }, 0)

/-- The sysfs store.  `kstrtoul buf base` is the kernel's parser: it yields
its return code (0 on success) and the parsed `unsigned long`, which is
meaningful only when the code is 0.  `wr` is the outcome of the register
write, should one be issued. -/
def level_store (kstrtoul : String → Nat → Int × Nat) (wr : Int)
    (ctx : khadas_mcu_fan_ctx) (buf : String) (count : Nat) : khadas_mcu_fan_ctx × Int :=
  let (err, level) := kstrtoul buf 10
  if err ≠ 0 ∨ level > MAX_LEVEL then (ctx, -EINVAL)
  else
    let (ctx, ret) := khadas_mcu_fan_set_level wr ctx (level % 2 ^ 32)
    if ret < 0 then (ctx, ret)
    else (ctx, size_to_ssize count)

/-- The sysfs show: the text `sprintf(buf, "%u\n", ctx->level)` produces and
its length. -/
def level_show (ctx : khadas_mcu_fan_ctx) : String × Int :=
  let out := toString ctx.level ++ "\n"
  (out, out.length)

def khadas_mcu_fan_get_max_state (devdata : Option khadas_mcu_fan_ctx) (state : Nat) :
    Nat × Int :=
  match devdata with
  | none => (state, -EINVAL)
  | some _ => (MAX_LEVEL, 0)

def khadas_mcu_fan_get_cur_state (devdata : Option khadas_mcu_fan_ctx) (state : Nat) :
    Nat × Int :=
  match devdata with
  | none => (state, -EINVAL)
  | some ctx => (ctx.level, 0)

/-- The cooling-device op; `devdata` is `cdev->devdata` (`none` is NULL) and
`state` an `unsigned long`. -/
def khadas_mcu_fan_set_cur_state (wr : Int) (devdata : Option khadas_mcu_fan_ctx)
    (state : Nat) : Option khadas_mcu_fan_ctx × Int :=
  match devdata with
  | none => (none, -EINVAL)
  | some ctx =>
    if state > MAX_LEVEL then (some ctx, -EINVAL)
    else if state = ctx.level then (some ctx, 0)
    else
      let (ctx, ret) := khadas_mcu_fan_set_level wr ctx (state % 2 ^ 32)
      (some ctx, ret)

/-- Accumulates decimal digits; `none` on any other character. -/
def parse_digits : List Char → Nat → Option Nat
  | [], acc => some acc
  | c :: rest, acc =>
    if 48 ≤ c.toNat ∧ c.toNat ≤ 57 then parse_digits rest (acc * 10 + (c.toNat - 48))
    else none

/-- Drops one trailing newline, if there is one. -/
def strip_newline : List Char → List Char
  | [] => []
  | [c] => if c.toNat = 10 then [] else [c]
  | c :: rest => c :: strip_newline rest

/-- A decimal parser standing in for `kstrtoul` on concrete inputs: one
trailing newline is allowed, the empty string and anything that is not a
decimal number are rejected with `-EINVAL`, a value that does not fit an
`unsigned long` with `-ERANGE`. -/
def kstrtoul_dec (buf : String) (_base : Nat) : Int × Nat :=
  match strip_newline buf.data with
  | [] => (-EINVAL, 0)
  | body =>
    match parse_digits body 0 with
    | some v => if v < 2 ^ 64 then (0, v) else (-34, 0)
    | none => (-EINVAL, 0)

end KhadasMcuFan


namespace LegacyScpi

/-! ## A reply announcing 17 operating points -/

/-- I/O memory after a reply on channel 0 (receive area at `0x1000`): status
0, header `0x00001100` (17 operating points, latency 0), and in entry 16 of
the payload (offset `4 + 4 + 8 * 16` of the receive area) the frequency
1000; every other byte is 0. -/
def mem_count_17 : iomem :=
  fun a => if a = 0x1005 then 0x11 else if a = 0x1088 then 0xe8 else if a = 0x1089 then 0x03 else 0

/-- A successful exchange with that reply, successful allocations, and a
stack frame whose bytes are all `0xaa`. -/
def env_count_17 : dvfs_env :=
  { mbox := { send_ret := 0, tx_submitted := true, reply := some mem_count_17 }
    frame := fun _ => 0xaa
    kmalloc_ok := true
    kcalloc_ok := true }


/-! ## Mapping of the shared memory at probe time (lines 635-681) -/

/-- Value of `EADDRNOTAVAIL` in `include/uapi/asm-generic/errno.h`. -/
def EADDRNOTAVAIL : Int := 99

/-- A memory resource as `of_address_to_resource` fills it in: first and
last address. -/
structure resource where
  start : Nat
  end_ : Nat

/-- The helper `resource_size` of `linux/ioport.h`. -/
def resource_size (res : resource) : Nat :=
  res.end_ - res.start + 1

/-- Outcomes, for one channel, of the kernel services the probe loop calls:
the shared-memory resource (`none` when `of_address_to_resource` fails), the
address `devm_ioremap` returns for a request (`none` is NULL), and the error
of `mbox_request_channel` (`none` when it returns a channel). -/
structure probe_env where
  res : Option resource
  ioremap : Nat → Nat → Option Nat
  request_err : Option Int

/-- The Rockchip `init` hook (lines 329-338); `kmalloc_ok` tells whether
`devm_kmalloc` returns memory. -/
def rockchip_init (kmalloc_ok : Bool) (chan : legacy_scpi_chan) : legacy_scpi_chan × Int :=
  if !kmalloc_ok then (chan, -ENOMEM)
  else (chan, 0)

/-- End of the probe loop body (lines 663-676): the mutex is initialised and
the mailbox channel requested. -/
def legacy_scpi_probe_chan_request (env : probe_env) (pchan : legacy_scpi_chan) :
    Except Int legacy_scpi_chan :=
  let pchan := { pchan with xfers_lock := false }
  match env.request_err with
  | none => .ok pchan
  | some e => .error e

/-- Body of the probe loop for one channel (lines 635-676): the channel
record on success, the error code the probe returns otherwise.  `init` is
the `init` hook of the matched hook table, `none` when there is no table or
no such hook. -/
def legacy_scpi_probe_chan (env : probe_env)
    (init : Option (legacy_scpi_chan → legacy_scpi_chan × Int))
    (pchan : legacy_scpi_chan) : Except Int legacy_scpi_chan :=
  match env.res with
  | none => .error (-EINVAL)
  | some res =>
    let size := resource_size res
    match env.ioremap res.start size with
    | none => .error (-EADDRNOTAVAIL)
    | some rx =>
      let pchan := { pchan with rx_payload := rx }
      let pchan := { pchan with tx_payload := pchan.rx_payload + (size >>> 1) }
      match init with
      | some f =>
        let (pchan, ret) := f pchan
        if ret ≠ 0 then .error ret
        else legacy_scpi_probe_chan_request env pchan
      | none => legacy_scpi_probe_chan_request env pchan

/-- A probe environment: a region of `0x200` bytes at `0x1000`, mapped at
the same address, and a mailbox channel that is granted. -/
def probe_env_ok : probe_env :=
  { res := some { start := 0x1000, end_ := 0x11ff }
    ioremap := fun start _ => some start
    request_err := none }


/-- The two-channel instance in the middle of a transfer on channel 0: a
2-byte request `[1, 2]` from a 3-byte buffer, a 6-byte receive buffer of
which 4 bytes are to be filled, and an I/O memory whose byte at address `a`
is `a mod 7`. -/
def state_xfer_pending : scpi_state :=
  { info := { num_chans := 2
              channels := fun i =>
                { chan_init i with
                  t := { xfer_init with
                    tx_buf := some [1, 2, 3], tx_len := 2
                    rx_buf := some [9, 9, 9, 9, 9, 9], rx_len := 4 } }
              dvfs := [none, none, none]
              ops := none }
    mem := fun a => a % 7
    trace := [] }

end LegacyScpi

namespace MesonCvbs

/-! ## Meson CVBS encoder and connector (`drivers/gpu/drm/meson/meson_cvbs.c`) -/

/-- Value of `ENOMEM` in `include/uapi/asm-generic/errno-base.h`. -/
def ENOMEM : Int := 12

/-- Display mode (`struct drm_display_mode`, `drm/drm_modes.h`): the members
the mode table sets. -/
structure drm_display_mode where
  name : String
  type : Nat
  clock : Int
  hdisplay : Int
  hsync_start : Int
  hsync_end : Int
  htotal : Int
  hskew : Int
  vdisplay : Int
  vsync_start : Int
  vsync_end : Int
  vtotal : Int
  vscan : Int
  flags : Nat
  vrefresh : Int
  picture_aspect_ratio : Nat
  deriving DecidableEq, Repr, Inhabited

/-- Bit 6 of the mode type (`drm/drm_mode.h`). -/
def DRM_MODE_TYPE_DRIVER : Nat := 1 <<< 6
/-- Bit 4 of the mode flags (`drm/drm_mode.h`). -/
def DRM_MODE_FLAG_INTERLACE : Nat := 1 <<< 4
/-- Enumerator of `enum hdmi_picture_aspect` (`linux/hdmi.h`). -/
def HDMI_PICTURE_ASPECT_4_3 : Nat := 1

/-- Values of `enum drm_mode_status` (`drm/drm_modes.h`). -/
def MODE_OK : Int := 0
def MODE_BAD : Int := -2

/-- The initialiser macro `DRM_MODE` of `drm/drm_modes.h`; the members it
does not name are zero. -/
def DRM_MODE (nm : String) (t : Nat) (c hd hss hse ht hsk vd vss vse vt vs : Int) (f : Nat) :
    drm_display_mode :=
  { name := nm, type := t, clock := c, hdisplay := hd, hsync_start := hss, hsync_end := hse,
    htotal := ht, hskew := hsk, vdisplay := vd, vsync_start := vss, vsync_end := vse,
    vtotal := vt, vscan := vs, flags := f, vrefresh := 0, picture_aspect_ratio := 0 }

/-- The encoder settings a table entry points to. -/
inductive meson_cvbs_enci_mode where
  | meson_cvbs_enci_pal
  | meson_cvbs_enci_ntsc
  deriving DecidableEq, Repr, Inhabited

structure meson_cvbs_mode where
  enci : meson_cvbs_enci_mode
  mode : drm_display_mode
  deriving DecidableEq, Repr, Inhabited

def meson_cvbs_modes : List meson_cvbs_mode :=
  [ { enci := .meson_cvbs_enci_pal
      mode := { DRM_MODE "720x576i" DRM_MODE_TYPE_DRIVER 13500
                  720 732 795 864 0 576 580 586 625 0 DRM_MODE_FLAG_INTERLACE with
                vrefresh := 50
                picture_aspect_ratio := HDMI_PICTURE_ASPECT_4_3 } },
    { enci := .meson_cvbs_enci_ntsc
      mode := { DRM_MODE "720x480i" DRM_MODE_TYPE_DRIVER 13500
                  720 739 801 858 0 480 488 494 525 0 DRM_MODE_FLAG_INTERLACE with
                vrefresh := 60
                picture_aspect_ratio := HDMI_PICTURE_ASPECT_4_3 } } ]

/-- The loop of `meson_cvbs_connector_mode_valid` over the entries still to
be visited.  `drm_mode_equal` is the comparison of the DRM core. -/
def meson_cvbs_connector_mode_valid_loop
    (drm_mode_equal : drm_display_mode → drm_display_mode → Bool)
    (mode : drm_display_mode) : List meson_cvbs_mode → Int
  | [] => MODE_BAD
  | meson_mode :: rest =>
    if drm_mode_equal mode meson_mode.mode then MODE_OK
    else meson_cvbs_connector_mode_valid_loop drm_mode_equal mode rest

def meson_cvbs_connector_mode_valid
    (drm_mode_equal : drm_display_mode → drm_display_mode → Bool)
    (mode : drm_display_mode) : Int :=
  meson_cvbs_connector_mode_valid_loop drm_mode_equal mode meson_cvbs_modes

/-- The loop of `meson_cvbs_connector_get_modes` from index `i` on.
`drm_mode_duplicate i m` is the result of the duplication in iteration `i`
(`none` is NULL); `probed` is the connector's list of probed modes, to which
`drm_mode_probed_add` appends.  The result is that list and the return
value. -/
def meson_cvbs_connector_get_modes_loop
    (drm_mode_duplicate : Nat → drm_display_mode → Option drm_display_mode)
    (i : Nat) (probed : List drm_display_mode) :
    List meson_cvbs_mode → List drm_display_mode × Int
  | [] => (probed, i)
  | meson_mode :: rest =>
    match drm_mode_duplicate i meson_mode.mode with
    | none => (probed, 0)
    | some mode =>
      meson_cvbs_connector_get_modes_loop drm_mode_duplicate (i + 1) (probed ++ [mode]) rest

def meson_cvbs_connector_get_modes
    (drm_mode_duplicate : Nat → drm_display_mode → Option drm_display_mode)
    (probed : List drm_display_mode) : List drm_display_mode × Int :=
  meson_cvbs_connector_get_modes_loop drm_mode_duplicate 0 probed meson_cvbs_modes

/-- The pixel period macro `KHZ2PICOS` of `linux/fb.h`. -/
def KHZ2PICOS (a : Int) : Int := 1000000000 / a

/-- A comparison standing in for `drm_mode_equal` on concrete inputs: equal
pixel period (or both clocks zero), equal timings and equal flags. -/
def drm_mode_equal_timing (mode1 mode2 : drm_display_mode) : Bool :=
  (if mode1.clock ≠ 0 ∧ mode2.clock ≠ 0 then
      decide (KHZ2PICOS mode1.clock = KHZ2PICOS mode2.clock)
    else decide (mode1.clock = mode2.clock)) &&
  decide (mode1.hdisplay = mode2.hdisplay ∧ mode1.hsync_start = mode2.hsync_start ∧
    mode1.hsync_end = mode2.hsync_end ∧ mode1.htotal = mode2.htotal ∧
    mode1.hskew = mode2.hskew ∧ mode1.vdisplay = mode2.vdisplay ∧
    mode1.vsync_start = mode2.vsync_start ∧ mode1.vsync_end = mode2.vsync_end ∧
    mode1.vtotal = mode2.vtotal ∧ mode1.vscan = mode2.vscan ∧ mode1.flags = mode2.flags)

/-- A duplication that always succeeds and yields a copy. -/
def drm_mode_duplicate_copy (_i : Nat) (mode : drm_display_mode) : Option drm_display_mode :=
  some mode

/-! ### Creation (lines 218-266) -/

/-- Outcomes of the kernel services `meson_cvbs_create` calls: whether
`devm_kzalloc` returns memory, and the return values of `drm_encoder_init`
and `drm_connector_init`. -/
structure create_env where
  kzalloc_ok : Bool
  encoder_init_ret : Int
  connector_init_ret : Int

/-- What a call of `meson_cvbs_create` leaves behind: the DRM calls it made,
in order, the messages it logged with `dev_err`, and the two members it sets
on success. -/
structure create_state where
  calls : List String
  errors : List String
  possible_crtcs : Nat
  interlace_allowed : Bool
  deriving DecidableEq, Repr

def create_state_init : create_state :=
  { calls := [], errors := [], possible_crtcs := 0, interlace_allowed := false }

/-- Modelled from the spec: `drm_connector_init` belongs to the DRM core.
The call is recorded and returns the outcome decided outside the driver. -/
def drm_connector_init (env : create_env) (st : create_state) : create_state × Int :=
  ({ st with calls := st.calls ++ ["drm_connector_init"] }, env.connector_init_ret)

/-- Modelled from the spec: `drm_encoder_init` belongs to the DRM core.  The
call is recorded and returns the outcome decided outside the driver. -/
def drm_encoder_init (env : create_env) (st : create_state) : create_state × Int :=
  ({ st with calls := st.calls ++ ["drm_encoder_init"] }, env.encoder_init_ret)

def meson_cvbs_create (env : create_env) : create_state × Int :=
  let st := create_state_init
  if !env.kzalloc_ok then (st, -ENOMEM)
  else
    let st := { st with calls := st.calls ++ ["drm_encoder_helper_add"] }
    let (st, ret) := drm_encoder_init env st
    if ret ≠ 0 then
      ({ st with errors := st.errors ++ ["Failed to init CVBS encoder\n"] }, ret)
    else
      let st := { st with possible_crtcs := 1 <<< 0 }
      let st := { st with calls := st.calls ++ ["drm_connector_helper_add"] }
      -- the value `drm_connector_init` returns is not stored: `ret` is still
      -- the result of `drm_encoder_init`
      let st := (drm_connector_init env st).1
      if ret ≠ 0 then
        ({ st with errors := st.errors ++ ["Failed to init CVBS connector\n"] }, ret)
      else
        let st := { st with interlace_allowed := true }
        let st := { st with calls := st.calls ++ ["drm_mode_connector_attach_encoder"] }
        (st, 0)

/-- Allocation and encoder initialisation succeed, `drm_connector_init`
fails with the given error. -/
def env_connector_fails (e : Int) : create_env :=
  { kzalloc_ok := true, encoder_init_ret := 0, connector_init_ret := e }

end MesonCvbs

namespace TimerSp804

/-! ## SP804 timer (`drivers/clocksource/timer-sp804.c`) -/

/-! Register offsets and control bits of `timer-sp.h`. -/

def TIMER_1_BASE : Nat := 0x00
def TIMER_2_BASE : Nat := 0x20
def TIMER_LOAD : Nat := 0x00
def TIMER_VALUE : Nat := 0x04
def TIMER_CTRL : Nat := 0x08
def TIMER_CTRL_ONESHOT : Nat := 1 <<< 0
def TIMER_CTRL_32BIT : Nat := 1 <<< 1
def TIMER_CTRL_IE : Nat := 1 <<< 5
def TIMER_CTRL_PERIODIC : Nat := 1 <<< 6
def TIMER_CTRL_ENABLE : Nat := 1 <<< 7
def TIMER_INTCLR : Nat := 0x0c

/-- One access to a device register. -/
inductive reg_access where
  | writel (val : Nat) (addr : Nat)
  | readl (addr : Nat)
  deriving DecidableEq, Repr

/-- A clock, given by what the clock framework answers for it: the return
values of `clk_prepare` and `clk_enable` and the rate `clk_get_rate` reports,
as the `long` it is stored in. -/
structure clk where
  prepare_err : Int
  enable_err : Int
  rate : Int
  deriving DecidableEq, Repr

/-- Timer description (`struct timer_sp804`, `clocksource/timer-sp804.h`);
a clock that is `none` is the NULL pointer. -/
structure timer_sp804 where
  clockevent_base : Nat
  clocksource_base : Nat
  clockevent_clk : Option clk
  clocksource_clk : Option clk
  irq : Int
  width : Nat
  name : String

/-- The file's static variables, the register accesses made so far (oldest
first), and the `iounmap` and `setup_irq` calls made so far. -/
structure sp804_state where
  initialized : Bool
  sched_clock_base : Option Nat
  clkevt_base : Option Nat
  clkevt_reload : Int
  log : List reg_access
  unmapped : List Nat
  irqs : List Int

/-- The device-tree node and the outcomes of the kernel services the
initialisation calls: the mapping of the registers (`none` is NULL), whether
the node is available, the clocks (`none` when the lookup returns an error
pointer), the number of clock references, the interrupt number, whether the
node is an OX810SE timer, the property `arm,sp804-has-irq` if present, the
`compatible` string, the clock `clk_get_sys` finds, the tick rate `HZ`, and
the register accesses made by the callbacks the clockevent and clocksource
frameworks invoke while a device is registered. -/
structure of_env where
  iomap : Option Nat
  available : Bool
  clk1 : Option clk
  nclocks : Int
  clk2 : Option clk
  irq : Int
  ox810se : Bool
  irq_num : Option Nat
  name : String
  clk_sys : Option clk
  hz : Int
  clockevent_accesses : List reg_access
  clocksource_accesses : List reg_access

def writel (st : sp804_state) (val addr : Nat) : sp804_state :=
  { st with log := st.log ++ [.writel val addr] }

def iounmap (st : sp804_state) (base : Nat) : sp804_state :=
  { st with unmapped := st.unmapped ++ [base] }

/-- Clock set-up (lines 37-66): the rate, or a negative error. -/
def sp804_get_clock_rate (c : clk) : Int :=
  if c.prepare_err ≠ 0 then c.prepare_err
  else if c.enable_err ≠ 0 then c.enable_err
  else c.rate

def sp804_timer_disable (st : sp804_state) (base : Nat) : sp804_state :=
  writel st 0 (base + TIMER_CTRL)

/-- The macro `DIV_ROUND_CLOSEST` of `linux/kernel.h` for a non-negative
dividend and a positive divisor. -/
def DIV_ROUND_CLOSEST (x divisor : Int) : Int :=
  (x + divisor / 2) / divisor

/-- Clocksource set-up (lines 80-118).  Registering the clocksource and the
scheduler clock lets the frameworks read the counter; those accesses are
`env.clocksource_accesses`. -/
def __sp804_clocksource_and_sched_clock_init (env : of_env) (st : sp804_state)
    (sp804 : timer_sp804) (use_sched_clock : Bool) : sp804_state :=
  let config := TIMER_CTRL_ENABLE ||| TIMER_CTRL_PERIODIC
  let clk := match sp804.clocksource_clk with
    | some c => some c
    | none => env.clk_sys
  match clk with
  | none => st
  | some c =>
    let rate := sp804_get_clock_rate c
    if rate < 0 then st
    else
      let config := if sp804.width = 32 then config ||| TIMER_CTRL_32BIT else config
      let st := writel st 0 (sp804.clocksource_base + TIMER_CTRL)
      let st := writel st 0xffffffff (sp804.clocksource_base + TIMER_LOAD)
      let st := writel st 0xffffffff (sp804.clocksource_base + TIMER_VALUE)
      let st := writel st config (sp804.clocksource_base + TIMER_CTRL)
      let st := { st with log := st.log ++ env.clocksource_accesses }
      if use_sched_clock then
        { st with sched_clock_base := some sp804.clocksource_base }
      else st

/-- Clockevent set-up (lines 192-221).  Registering the device lets the
framework invoke its callbacks; their register accesses are
`env.clockevent_accesses`. -/
def __sp804_clockevents_init (env : of_env) (st : sp804_state) (sp804 : timer_sp804) :
    sp804_state :=
  let clk := match sp804.clockevent_clk with
    | some c => some c
    | none => env.clk_sys
  match clk with
  | none => st
  | some c =>
    let rate := sp804_get_clock_rate c
    if rate < 0 then st
    else
      let st := { st with clkevt_base := some sp804.clockevent_base
                          clkevt_reload := DIV_ROUND_CLOSEST rate env.hz }
      let st := writel st 0 (sp804.clockevent_base + TIMER_CTRL)
      let st := { st with irqs := st.irqs ++ [sp804.irq] }
      { st with log := st.log ++ env.clockevent_accesses }

/-- Device-tree initialisation (lines 223-290). -/
def sp804_of_init (env : of_env) (st : sp804_state) : sp804_state :=
  match env.iomap with
  | none => st
  | some base =>
    -- Ensure timers are disabled
    let st := writel st 0 (base + TIMER_CTRL)
    let st := writel st 0 (base + TIMER_2_BASE + TIMER_CTRL)
    if st.initialized ∨ !env.available then iounmap st base
    else
      let clk1 := env.clk1
      let clk2 := if env.nclocks = 3 then env.clk2 else clk1
      let irq := env.irq
      if irq ≤ 0 then iounmap st base
      else
        let width := if env.ox810se then 24 else 32
        let irq_num := env.irq_num.getD 0
        let sp804 : timer_sp804 :=
          if irq_num = 2 then
            { clockevent_base := base + TIMER_2_BASE
              clocksource_base := base
              clockevent_clk := clk2
              clocksource_clk := clk1
              irq := irq, width := width, name := env.name }
          else
            { clockevent_base := base
              clocksource_base := base + TIMER_2_BASE
              clockevent_clk := clk1
              clocksource_clk := clk2
              irq := irq, width := width, name := env.name }
        let st := __sp804_clockevents_init env st sp804
        let st := __sp804_clocksource_and_sched_clock_init env st sp804 true
        { st with initialized := true }

/-- State before the first initialisation: nothing has happened. -/
def sp804_state_init : sp804_state :=
  { initialized := false, sched_clock_base := none, clkevt_base := none, clkevt_reload := 0,
    log := [], unmapped := [], irqs := [] }

/-- A 1 MHz clock that prepares and enables without error. -/
def clk_1mhz : clk := { prepare_err := 0, enable_err := 0, rate := 1000000 }

/-- A node mapped at `0x9000` with one clock, interrupt 34 and no
`arm,sp804-has-irq` property; the frameworks make no register access of
their own. -/
def of_env_ok : of_env :=
  { iomap := some 0x9000, available := true, clk1 := some clk_1mhz, nclocks := 1,
    clk2 := none, irq := 34, ox810se := false, irq_num := none, name := "arm,sp804",
    clk_sys := none, hz := 100, clockevent_accesses := [], clocksource_accesses := [] }

end TimerSp804

/-! # Theorems -/

namespace LegacyScpi

/-- C1: `legacy_scpi_to_linux_errno` agrees with the 13-entry table on the
firmware status values 0..12 and yields `- EIO` on every other integer,
negative ones included. -/
theorem legacy_scpi_to_linux_errno_table :
    legacy_scpi_to_linux_errno 0 = 0 ∧
    legacy_scpi_to_linux_errno 1 = -EINVAL ∧
    legacy_scpi_to_linux_errno 2 = -ENOEXEC ∧
    legacy_scpi_to_linux_errno 3 = -EMSGSIZE ∧
    legacy_scpi_to_linux_errno 4 = -EINVAL ∧
    legacy_scpi_to_linux_errno 5 = -EACCES ∧
    legacy_scpi_to_linux_errno 6 = -ERANGE ∧
    legacy_scpi_to_linux_errno 7 = -ETIMEDOUT ∧
    legacy_scpi_to_linux_errno 8 = -ENOMEM ∧
    legacy_scpi_to_linux_errno 9 = -EINVAL ∧
    legacy_scpi_to_linux_errno 10 = -EOPNOTSUPP ∧
    legacy_scpi_to_linux_errno 11 = - EIO ∧
    legacy_scpi_to_linux_errno 12 = -EBUSY ∧
    ∀ e : Int, (e < 0 ∨ 12 < e) → legacy_scpi_to_linux_errno e = - EIO := by
  refine ⟨by decide, by decide, by decide, by decide, by decide, by decide, by decide,
    by decide, by decide, by decide, by decide, by decide, by decide, ?_⟩
  intro e he
  unfold legacy_scpi_to_linux_errno SCPI_SUCCESS SCPI_ERR_MAX
  rw [if_neg]
  omega

/-- The three fields of a packed command occupy disjoint bit ranges, so the
bitwise OR is a sum. -/
theorem PACK_SCPI_CMD_eq_add (cmd_id sender tx_sz : Nat) :
    PACK_SCPI_CMD cmd_id sender tx_sz
      = cmd_id % 128 + (sender % 256) * 2 ^ 8 + (tx_sz % 512) * 2 ^ 20 := by
  unfold PACK_SCPI_CMD CMD_ID_MASK CMD_ID_SHIFT CMD_SENDER_ID_MASK CMD_SENDER_ID_SHIFT
    CMD_DATA_SIZE_MASK CMD_DATA_SIZE_SHIFT
  have h1 : cmd_id &&& 0x7f = cmd_id % 2 ^ 7 := Nat.and_pow_two_sub_one_eq_mod cmd_id 7
  have h2 : sender &&& 0xff = sender % 2 ^ 8 := Nat.and_pow_two_sub_one_eq_mod sender 8
  have h3 : tx_sz &&& 0x1ff = tx_sz % 2 ^ 9 := Nat.and_pow_two_sub_one_eq_mod tx_sz 9
  rw [h1, h2, h3]
  simp only [Nat.shiftLeft_eq, Nat.pow_zero, Nat.mul_one]
  have a1 : cmd_id % 2 ^ 7 < 2 ^ 8 := by omega
  have e1 := Nat.mul_add_lt_is_or a1 (sender % 2 ^ 8)
  have a2 : 2 ^ 8 * (sender % 2 ^ 8) + cmd_id % 2 ^ 7 < 2 ^ 20 := by omega
  have e2 := Nat.mul_add_lt_is_or a2 (tx_sz % 2 ^ 9)
  have c1 : cmd_id % 2 ^ 7 ||| sender % 2 ^ 8 * 2 ^ 8
      = 2 ^ 8 * (sender % 2 ^ 8) + cmd_id % 2 ^ 7 := by
    rw [e1, Nat.lor_comm, Nat.mul_comm]
  rw [c1]
  have c2 : (2 ^ 8 * (sender % 2 ^ 8) + cmd_id % 2 ^ 7) ||| tx_sz % 2 ^ 9 * 2 ^ 20
      = 2 ^ 20 * (tx_sz % 2 ^ 9) + (2 ^ 8 * (sender % 2 ^ 8) + cmd_id % 2 ^ 7) := by
    rw [e2, Nat.lor_comm, Nat.mul_comm]
  rw [c2]
  omega

/-- C1, at the input `-7`. -/
theorem legacy_scpi_to_linux_errno_table_witness :
    ((-7 : Int) < 0 ∨ 12 < (-7 : Int)) ∧ legacy_scpi_to_linux_errno (-7) = - EIO :=
  ⟨by decide, legacy_scpi_to_linux_errno_table.2.2.2.2.2.2.2.2.2.2.2.2.2 (-7) (by decide)⟩

/-- C5: `PACK_SCPI_CMD` is the OR of the three masked and shifted fields, the
word is below `2^29`, bits 0..6 hold `cmd_id & 0x7f`, bits 8..15 hold
`sender & 0xff`, bit 7 and bits 16..19 are clear, `CMD_SIZE` of the word is
`tx_sz & 0x1ff`, and `CMD_SIZE` gives back every `tx_sz ≤ 511`. -/
theorem PACK_SCPI_CMD_fields (cmd_id sender tx_sz : Nat) :
    PACK_SCPI_CMD cmd_id sender tx_sz
        = (cmd_id &&& 0x7f) ||| ((sender &&& 0xff) <<< 8) ||| ((tx_sz &&& 0x1ff) <<< 20) ∧
    PACK_SCPI_CMD cmd_id sender tx_sz < 2 ^ 29 ∧
    PACK_SCPI_CMD cmd_id sender tx_sz &&& 0x7f = cmd_id &&& 0x7f ∧
    (PACK_SCPI_CMD cmd_id sender tx_sz >>> 8) &&& 0xff = sender &&& 0xff ∧
    (PACK_SCPI_CMD cmd_id sender tx_sz >>> 7) &&& 0x1 = 0 ∧
    (PACK_SCPI_CMD cmd_id sender tx_sz >>> 16) &&& 0xf = 0 ∧
    CMD_SIZE (PACK_SCPI_CMD cmd_id sender tx_sz) = tx_sz &&& 0x1ff ∧
    (tx_sz ≤ 511 → CMD_SIZE (PACK_SCPI_CMD cmd_id sender tx_sz) = tx_sz) := by
  have m1 : ∀ x : Nat, x &&& 0x1 = x % 2 ^ 1 := fun x => Nat.and_pow_two_sub_one_eq_mod x 1
  have m4 : ∀ x : Nat, x &&& 0xf = x % 2 ^ 4 := fun x => Nat.and_pow_two_sub_one_eq_mod x 4
  have m7 : ∀ x : Nat, x &&& 0x7f = x % 2 ^ 7 := fun x => Nat.and_pow_two_sub_one_eq_mod x 7
  have m8 : ∀ x : Nat, x &&& 0xff = x % 2 ^ 8 := fun x => Nat.and_pow_two_sub_one_eq_mod x 8
  have m9 : ∀ x : Nat, x &&& 0x1ff = x % 2 ^ 9 := fun x => Nat.and_pow_two_sub_one_eq_mod x 9
  have hp := PACK_SCPI_CMD_eq_add cmd_id sender tx_sz
  refine ⟨?_, ?_, ?_, ?_, ?_, ?_, ?_, ?_⟩
  · simp [PACK_SCPI_CMD, CMD_ID_MASK, CMD_ID_SHIFT, CMD_SENDER_ID_MASK, CMD_SENDER_ID_SHIFT,
      CMD_DATA_SIZE_MASK, CMD_DATA_SIZE_SHIFT]
  · omega
  · rw [m7, m7, hp]; omega
  · rw [m8, m8, Nat.shiftRight_eq_div_pow, hp]; omega
  · rw [m1, Nat.shiftRight_eq_div_pow, hp]; omega
  · rw [m4, Nat.shiftRight_eq_div_pow, hp]; omega
  · unfold CMD_SIZE CMD_DATA_SIZE_SHIFT CMD_DATA_SIZE_MASK
    rw [m9, m9, Nat.shiftRight_eq_div_pow, hp]; omega
  · intro ht
    unfold CMD_SIZE CMD_DATA_SIZE_SHIFT CMD_DATA_SIZE_MASK
    rw [m9, Nat.shiftRight_eq_div_pow, hp]; omega

/-- C5, at `tx_sz = 8` with the command and sender of a clock request. -/
theorem PACK_SCPI_CMD_fields_witness :
    (8 : Nat) ≤ 511 ∧ CMD_SIZE (PACK_SCPI_CMD 0x15 1 8) = 8 :=
  ⟨by decide, (PACK_SCPI_CMD_fields 0x15 1 8).2.2.2.2.2.2.2 (by decide)⟩

/-- The search loop returns 1 when the command occurs among the entries it
visits and 0 otherwise. -/
theorem legacy_scpi_get_chan_loop_eq (cmd : Nat) (l : List Nat) :
    legacy_scpi_get_chan_loop cmd l = if cmd ∈ l then 1 else 0 := by
  induction l with
  | nil => simp [legacy_scpi_get_chan_loop]
  | cons c rest ih =>
    unfold legacy_scpi_get_chan_loop
    by_cases h : cmd = c
    · simp [h]
    · simp [h, ih]

/-- C6: `legacy_scpi_get_chan` returns 1 exactly on the 14 high-priority
commands and 0 on every other command, so its result is 0 or 1 and, as the
`u8` channel number of `legacy_scpi_send_message`, lies below `num_chans`
whenever at least two channels were probed. -/
theorem legacy_scpi_get_chan_routing (cmd : Nat) :
    (legacy_scpi_get_chan cmd = 1 ↔
      cmd ∈ [0x05, 0x06, 0x07, 0x0e, 0x0f, 0x11, 0x12, 0x14, 0x15, 0x16, 0x18, 0x19,
        0x1d, 0x1e]) ∧
    (cmd ∉ [0x05, 0x06, 0x07, 0x0e, 0x0f, 0x11, 0x12, 0x14, 0x15, 0x16, 0x18, 0x19,
        0x1d, 0x1e] → legacy_scpi_get_chan cmd = 0) ∧
    (legacy_scpi_get_chan cmd = 0 ∨ legacy_scpi_get_chan cmd = 1) ∧
    ∀ s : scpi_state, 2 ≤ s.info.num_chans →
      ((legacy_scpi_get_chan cmd % 2 ^ 8 : Nat) : Int) < s.info.num_chans := by
  have key : (cmd ∈ [0x05, 0x06, 0x07, 0x0e, 0x0f, 0x11, 0x12, 0x14, 0x15, 0x16, 0x18, 0x19,
        0x1d, 0x1e] ∧ legacy_scpi_get_chan cmd = 1) ∨
      (cmd ∉ [0x05, 0x06, 0x07, 0x0e, 0x0f, 0x11, 0x12, 0x14, 0x15, 0x16, 0x18, 0x19,
        0x1d, 0x1e] ∧ legacy_scpi_get_chan cmd = 0) := by
    have hl : high_priority_cmds = [0x05, 0x06, 0x07, 0x0e, 0x0f, 0x11, 0x12, 0x14, 0x15,
        0x16, 0x18, 0x19, 0x1d, 0x1e] := by decide
    rw [← hl]
    unfold legacy_scpi_get_chan
    rw [legacy_scpi_get_chan_loop_eq]
    by_cases h : cmd ∈ high_priority_cmds
    · left; exact ⟨h, if_pos h⟩
    · right; exact ⟨h, if_neg h⟩
  refine ⟨?_, ?_, ?_, ?_⟩
  · rcases key with ⟨h, e⟩ | ⟨h, e⟩
    · exact ⟨fun _ => h, fun _ => e⟩
    · exact ⟨fun e1 => by omega, fun h1 => absurd h1 h⟩
  · intro h
    rcases key with ⟨h1, _⟩ | ⟨_, e⟩
    · exact absurd h1 h
    · exact e
  · rcases key with ⟨_, e⟩ | ⟨_, e⟩ <;> omega
  · intro s hs
    rcases key with ⟨_, e⟩ | ⟨_, e⟩ <;> rw [e] <;> omega

/-- C6, on the driver instance with two channels and the command
`SET_CLOCK_VALUE`. -/
theorem legacy_scpi_get_chan_routing_witness :
    (2 : Int) ≤ (state_init none).info.num_chans ∧
    ((legacy_scpi_get_chan 0x15 % 2 ^ 8 : Nat) : Int) < (state_init none).info.num_chans :=
  ⟨by decide, (legacy_scpi_get_chan_routing 0x15).2.2.2 (state_init none) (by decide)⟩


/-! ## Projections of the state helpers -/

@[simp]
theorem emit_info (s : scpi_state) (e : scpi_event) : (emit s e).info = s.info := rfl
@[simp]
theorem emit_mem (s : scpi_state) (e : scpi_event) : (emit s e).mem = s.mem := rfl
@[simp]
theorem emit_trace (s : scpi_state) (e : scpi_event) :
    (emit s e).trace = s.trace ++ [e] := rfl

@[simp]
theorem set_chan_mem (s : scpi_state) (i : Nat) (c : legacy_scpi_chan) :
    (set_chan s i c).mem = s.mem := rfl
@[simp]
theorem set_chan_trace (s : scpi_state) (i : Nat) (c : legacy_scpi_chan) :
    (set_chan s i c).trace = s.trace := rfl
@[simp]
theorem set_chan_ops (s : scpi_state) (i : Nat) (c : legacy_scpi_chan) :
    (set_chan s i c).info.ops = s.info.ops := rfl
@[simp]
theorem set_chan_dvfs (s : scpi_state) (i : Nat) (c : legacy_scpi_chan) :
    (set_chan s i c).info.dvfs = s.info.dvfs := rfl
@[simp]
theorem set_chan_num_chans (s : scpi_state) (i : Nat) (c : legacy_scpi_chan) :
    (set_chan s i c).info.num_chans = s.info.num_chans := rfl
@[simp]
theorem set_chan_same (s : scpi_state) (i : Nat) (c : legacy_scpi_chan) :
    (set_chan s i c).info.channels i = c := by
  simp [set_chan]
theorem set_chan_other (s : scpi_state) (i j : Nat) (c : legacy_scpi_chan) (h : j ≠ i) :
    (set_chan s i c).info.channels j = s.info.channels j := by
  simp [set_chan, h]

@[simp]
theorem tx_prepare_info (s : scpi_state) (i : Nat) :
    (legacy_scpi_tx_prepare s i).info = s.info := by
  unfold legacy_scpi_tx_prepare
  dsimp only
  split <;> (try split_ifs) <;> rfl
@[simp]
theorem tx_prepare_trace (s : scpi_state) (i : Nat) :
    (legacy_scpi_tx_prepare s i).trace = s.trace := by
  unfold legacy_scpi_tx_prepare
  dsimp only
  split <;> (try split_ifs) <;> rfl

@[simp]
theorem mbox_send_message_ret (env : mbox_env) (s : scpi_state) (i : Nat)
    (m : vendor_msg_ref) : (mbox_send_message env s i m).2 = env.send_ret := rfl
@[simp]
theorem mbox_send_message_info (env : mbox_env) (s : scpi_state) (i : Nat)
    (m : vendor_msg_ref) : (mbox_send_message env s i m).1.info = s.info := by
  unfold mbox_send_message
  cases env.tx_submitted <;> simp
@[simp]
theorem mbox_send_message_trace (env : mbox_env) (s : scpi_state) (i : Nat)
    (m : vendor_msg_ref) :
    (mbox_send_message env s i m).1.trace = s.trace ++ [.mbox_send i (s.info.channels i).t] := by
  unfold mbox_send_message
  cases env.tx_submitted <;> simp

/-- State of the channel after the receive callback. -/
theorem handle_remote_msg_chan (s : scpi_state) (i : Nat) :
    (legacy_scpi_handle_remote_msg s i).info.channels i =
      { s.info.channels i with
        t := { (s.info.channels i).t with
          status := le32_at s.mem (s.info.channels i).rx_payload
          rx_buf := if (s.info.channels i).t.rx_len ≠ 0 then
              (s.info.channels i).t.rx_buf.map (fun b =>
                memcpy_fromio b s.mem ((s.info.channels i).rx_payload + 4)
                  (s.info.channels i).t.rx_len)
            else (s.info.channels i).t.rx_buf
          done := true } } := by
  unfold legacy_scpi_handle_remote_msg
  by_cases h : (s.info.channels i).t.rx_len ≠ 0 <;> simp [h]

@[simp]
theorem handle_remote_msg_trace (s : scpi_state) (i : Nat) :
    (legacy_scpi_handle_remote_msg s i).trace = s.trace := rfl
@[simp]
theorem handle_remote_msg_mem (s : scpi_state) (i : Nat) :
    (legacy_scpi_handle_remote_msg s i).mem = s.mem := rfl
@[simp]
theorem handle_remote_msg_ops (s : scpi_state) (i : Nat) :
    (legacy_scpi_handle_remote_msg s i).info.ops = s.info.ops := rfl
@[simp]
theorem handle_remote_msg_dvfs (s : scpi_state) (i : Nat) :
    (legacy_scpi_handle_remote_msg s i).info.dvfs = s.info.dvfs := rfl

/-- Return value of the tail of `legacy_scpi_send_message`. -/
theorem send_message_xfer_ret (env : mbox_env) (s : scpi_state) (chan : Nat) :
    (legacy_scpi_send_message_xfer env s chan).2 =
      if env.send_ret < 0 then env.send_ret
      else match env.reply with
        | none => -ETIMEDOUT
        | some m =>
          if u32_to_int (le32_at m (s.info.channels chan).rx_payload) > 0 then
            legacy_scpi_to_linux_errno (u32_to_int (le32_at m (s.info.channels chan).rx_payload))
          else u32_to_int (le32_at m (s.info.channels chan).rx_payload) := by
  unfold legacy_scpi_send_message_xfer
  by_cases hs : env.send_ret < 0
  · have : ¬ env.send_ret > 0 := by omega
    simp [hs, this]
  · cases hr : env.reply with
    | none => simp [hs, hr, wait_for_completion_timeout, ETIMEDOUT]
    | some m =>
      simp [hs, hr, wait_for_completion_timeout, handle_remote_msg_chan]


@[simp]
theorem mutex_lock_ops (s : scpi_state) (i : Nat) :
    (mutex_lock s i).info.ops = s.info.ops := rfl
@[simp]
theorem mutex_lock_dvfs (s : scpi_state) (i : Nat) :
    (mutex_lock s i).info.dvfs = s.info.dvfs := rfl
@[simp]
theorem mutex_lock_mem (s : scpi_state) (i : Nat) :
    (mutex_lock s i).mem = s.mem := rfl
@[simp]
theorem mutex_lock_trace (s : scpi_state) (i : Nat) :
    (mutex_lock s i).trace = s.trace ++ [.lock i] := rfl
@[simp]
theorem mutex_lock_chan (s : scpi_state) (i : Nat) :
    (mutex_lock s i).info.channels i = { s.info.channels i with xfers_lock := true } := by
  simp [mutex_lock]
@[simp]
theorem mutex_unlock_ops (s : scpi_state) (i : Nat) :
    (mutex_unlock s i).info.ops = s.info.ops := rfl
@[simp]
theorem mutex_unlock_dvfs (s : scpi_state) (i : Nat) :
    (mutex_unlock s i).info.dvfs = s.info.dvfs := rfl
@[simp]
theorem mutex_unlock_mem (s : scpi_state) (i : Nat) :
    (mutex_unlock s i).mem = s.mem := rfl
@[simp]
theorem mutex_unlock_trace (s : scpi_state) (i : Nat) :
    (mutex_unlock s i).trace = s.trace ++ [.unlock i] := rfl
@[simp]
theorem mutex_unlock_chan (s : scpi_state) (i : Nat) :
    (mutex_unlock s i).info.channels i = { s.info.channels i with xfers_lock := false } := by
  simp [mutex_unlock]

/-- Return value of `legacy_scpi_send_message` as a function of the outcome
of the mailbox exchange, for the hook configurations of this driver. -/
theorem legacy_scpi_send_message_ret (env : mbox_env) (s : scpi_state) (cmd arg : Nat)
    (tx_buf : Option (List Nat)) (tx_len : Nat) (rx_buf : Option (List Nat)) (rx_len : Nat)
    (hops : driver_ops s) :
    (legacy_scpi_send_message env s cmd arg tx_buf tx_len rx_buf rx_len).2 =
      if env.send_ret < 0 then env.send_ret
      else match env.reply with
        | none => -ETIMEDOUT
        | some m =>
          if u32_to_int (le32_at m (s.info.channels (legacy_scpi_get_chan cmd % 2 ^ 8)).rx_payload) > 0
          then legacy_scpi_to_linux_errno
            (u32_to_int (le32_at m (s.info.channels (legacy_scpi_get_chan cmd % 2 ^ 8)).rx_payload))
          else u32_to_int (le32_at m (s.info.channels (legacy_scpi_get_chan cmd % 2 ^ 8)).rx_payload) := by
  rcases hops with h | h
  · simp [legacy_scpi_send_message, h, send_message_xfer_ret]
  · simp [legacy_scpi_send_message, h, send_message_xfer_ret, scpi_rockchip_ops, rockchip_prepare]


theorem le32_at_lt (m : iomem) (a : Nat) : le32_at m a < 2 ^ 32 := by
  unfold le32_at
  omega

theorem u32_to_int_eq_zero (x : Nat) (hx : x < 2 ^ 32) : u32_to_int x = 0 ↔ x = 0 := by
  unfold u32_to_int
  rw [Nat.mod_eq_of_lt hx]
  split_ifs <;> omega

/-- Every positive status is translated to an errno in `-4095..-1`. -/
theorem legacy_scpi_to_linux_errno_range (e : Int) (he : 0 < e) :
    -MAX_ERRNO ≤ legacy_scpi_to_linux_errno e ∧ legacy_scpi_to_linux_errno e < 0 := by
  by_cases h : e < 13
  · have h0 : 0 ≤ e := by omega
    interval_cases e <;> decide
  · have : legacy_scpi_to_linux_errno e = - EIO := by
      unfold legacy_scpi_to_linux_errno SCPI_SUCCESS SCPI_ERR_MAX
      rw [if_neg]
      omega
    rw [this]
    decide

/-- C2: with the hooks of this driver, `legacy_scpi_send_message` never
returns a positive value, whatever the mailbox send returns, whether or not
a reply arrives and whatever 32-bit status word the reply carries; it
returns 0 exactly when the send did not fail, a reply arrived before the
timeout and its status word is 0. -/
theorem legacy_scpi_send_message_nonpos (env : mbox_env) (s : scpi_state) (cmd arg : Nat)
    (tx_buf : Option (List Nat)) (tx_len : Nat) (rx_buf : Option (List Nat)) (rx_len : Nat)
    (hops : driver_ops s) :
    (legacy_scpi_send_message env s cmd arg tx_buf tx_len rx_buf rx_len).2 ≤ 0 ∧
    ((legacy_scpi_send_message env s cmd arg tx_buf tx_len rx_buf rx_len).2 = 0 ↔
      (¬ env.send_ret < 0 ∧ ∃ m, env.reply = some m ∧
        le32_at m (s.info.channels (legacy_scpi_get_chan cmd % 2 ^ 8)).rx_payload = 0)) := by
  rw [legacy_scpi_send_message_ret env s cmd arg tx_buf tx_len rx_buf rx_len hops]
  by_cases hs : env.send_ret < 0
  · rw [if_pos hs]
    exact ⟨by omega, ⟨fun h => by omega, fun h => absurd hs h.1⟩⟩
  · rw [if_neg hs]
    cases hr : env.reply with
    | none =>
      dsimp only
      have ht : -ETIMEDOUT = (-110 : Int) := by decide
      rw [ht]
      refine ⟨by omega, ⟨fun h => by omega, fun h => ?_⟩⟩
      obtain ⟨_, m, hm, _⟩ := h
      cases hm
    | some m =>
      dsimp only
      have hz := u32_to_int_eq_zero _
        (le32_at_lt m (s.info.channels (legacy_scpi_get_chan cmd % 2 ^ 8)).rx_payload)
      by_cases hp : u32_to_int
          (le32_at m (s.info.channels (legacy_scpi_get_chan cmd % 2 ^ 8)).rx_payload) > 0
      · rw [if_pos hp]
        have hr := legacy_scpi_to_linux_errno_range _ hp
        refine ⟨by omega, ⟨fun h => by omega, fun h => ?_⟩⟩
        obtain ⟨_, m1, hm, hst⟩ := h
        cases hm
        have := hz.2 hst
        omega
      · rw [if_neg hp]
        refine ⟨by omega, ⟨fun h => ⟨hs, m, rfl, hz.1 h⟩, fun h => ?_⟩⟩
        obtain ⟨_, m1, hm, hst⟩ := h
        cases hm
        exact hz.2 hst


/-- C2, on the two-channel instance without hooks and a reply with status 0:
the call returns 0. -/
theorem legacy_scpi_send_message_nonpos_witness :
    driver_ops (state_init none) ∧
    (legacy_scpi_send_message env_reply_ok (state_init none) 0x0d 2 (some [0]) 1
      (some [0, 0, 0, 0]) 4).2 = 0 :=
  ⟨Or.inl rfl,
   ((legacy_scpi_send_message_nonpos env_reply_ok (state_init none) 0x0d 2 (some [0]) 1
      (some [0, 0, 0, 0]) 4 (Or.inl rfl)).2).2
     ⟨by decide, fun _ => 0, rfl, by decide⟩⟩

/-- C3, the failing input: the mailbox send succeeds, the reply arrives and
its status word is `0x80000000`.  `legacy_scpi_send_message` returns
`-2147483648`, which is below `-4095`, and the pointer
`legacy_scpi_dvfs_get_info` builds from it with `ERR_PTR` is not recognised
by `IS_ERR`. -/
theorem legacy_scpi_send_message_status_high_bit :
    (legacy_scpi_send_message env_status_high_bit (state_init none) 0x0d 2 (some [0]) 1
      (some [0, 0, 0, 0]) 4).2 = -2147483648 ∧
    ¬ (-MAX_ERRNO ≤ (legacy_scpi_send_message env_status_high_bit (state_init none) 0x0d 2
      (some [0]) 1 (some [0, 0, 0, 0]) 4).2) ∧
    (legacy_scpi_dvfs_get_info
      { mbox := env_status_high_bit, frame := fun _ => 0, kmalloc_ok := true, kcalloc_ok := true }
      (state_init none) 0).2 = .ERR_PTR (-2147483648) ∧
    IS_ERR (legacy_scpi_dvfs_get_info
      { mbox := env_status_high_bit, frame := fun _ => 0, kmalloc_ok := true, kcalloc_ok := true }
      (state_init none) 0).2 = false := by
  refine ⟨by decide, by decide, by decide, by decide⟩


/-- State after the tail of `legacy_scpi_send_message` when the send
succeeded and no reply arrived: the channel is unlocked and its transfer
record is as it was. -/
theorem send_message_xfer_timeout_chan (env : mbox_env) (s : scpi_state) (chan : Nat)
    (hsend : 0 ≤ env.send_ret) (hto : env.reply = none) :
    (legacy_scpi_send_message_xfer env s chan).1.info.channels chan =
      { s.info.channels chan with xfers_lock := false } := by
  have hs : ¬ env.send_ret < 0 := by omega
  simp [legacy_scpi_send_message_xfer, hs, hto, wait_for_completion_timeout]

/-- C4: when the mailbox send succeeds and no completion is signalled before
the timeout, `legacy_scpi_send_message` returns `-ETIMEDOUT` whatever the
status field of the channel's transfer record holds, and that field is left
as it was. -/
theorem legacy_scpi_send_message_timeout (env : mbox_env) (s : scpi_state) (cmd arg : Nat)
    (tx_buf : Option (List Nat)) (tx_len : Nat) (rx_buf : Option (List Nat)) (rx_len : Nat)
    (hops : driver_ops s) (hsend : 0 ≤ env.send_ret) (hto : env.reply = none) :
    (legacy_scpi_send_message env s cmd arg tx_buf tx_len rx_buf rx_len).2 = -ETIMEDOUT ∧
    ((legacy_scpi_send_message env s cmd arg tx_buf tx_len rx_buf rx_len).1.info.channels
        (legacy_scpi_get_chan cmd % 2 ^ 8)).t.status
      = (s.info.channels (legacy_scpi_get_chan cmd % 2 ^ 8)).t.status := by
  constructor
  · rw [legacy_scpi_send_message_ret env s cmd arg tx_buf tx_len rx_buf rx_len hops,
      if_neg (by omega), hto]
  · rcases hops with h | h
    · simp [legacy_scpi_send_message, h, send_message_xfer_timeout_chan, hsend, hto]
    · simp [legacy_scpi_send_message, h, send_message_xfer_timeout_chan, hsend, hto,
        scpi_rockchip_ops, rockchip_prepare]

/-- C4, on an instance whose transfer records hold the stale status 12: the
call returns `-ETIMEDOUT` (-110), not the translation of the stale status. -/
theorem legacy_scpi_send_message_timeout_witness :
    driver_ops state_stale_status ∧ (0 : Int) ≤ env_no_reply.send_ret ∧
    env_no_reply.reply = none ∧
    (state_stale_status.info.channels (legacy_scpi_get_chan 0x0d % 2 ^ 8)).t.status = 12 ∧
    (legacy_scpi_send_message env_no_reply state_stale_status 0x0d 2 (some [0]) 1
      (some [0, 0, 0, 0]) 4).2 = -110 :=
  ⟨Or.inl rfl, by decide, rfl, by decide,
   (legacy_scpi_send_message_timeout env_no_reply state_stale_status 0x0d 2 (some [0]) 1
      (some [0, 0, 0, 0]) 4 (Or.inl rfl) (by decide) rfl).1⟩

/-- For a status word without the top bit, and mailbox failures that are
errno values, the result of `legacy_scpi_send_message` is not below
`-MAX_ERRNO`. -/
theorem legacy_scpi_send_message_errno_range (env : mbox_env) (s : scpi_state) (cmd arg : Nat)
    (tx_buf : Option (List Nat)) (tx_len : Nat) (rx_buf : Option (List Nat)) (rx_len : Nat)
    (hops : driver_ops s) (hmbox : env.send_ret < 0 → -MAX_ERRNO ≤ env.send_ret)
    (hst : ∀ m, env.reply = some m →
      le32_at m (s.info.channels (legacy_scpi_get_chan cmd % 2 ^ 8)).rx_payload < 2 ^ 31) :
    -MAX_ERRNO ≤ (legacy_scpi_send_message env s cmd arg tx_buf tx_len rx_buf rx_len).2 := by
  rw [legacy_scpi_send_message_ret env s cmd arg tx_buf tx_len rx_buf rx_len hops]
  by_cases hs : env.send_ret < 0
  · rw [if_pos hs]; exact hmbox hs
  · rw [if_neg hs]
    cases hr : env.reply with
    | none => dsimp only; decide
    | some m =>
      dsimp only
      have h31 := hst m hr
      split_ifs with hp
      · exact (legacy_scpi_to_linux_errno_range _ hp).1
      · unfold u32_to_int
        have : le32_at m (s.info.channels (legacy_scpi_get_chan cmd % 2 ^ 8)).rx_payload % 2 ^ 32
            < 2 ^ 31 := by omega
        rw [if_pos this]
        unfold MAX_ERRNO
        omega


theorem sent_msgs_append (l1 l2 : List scpi_event) :
    sent_msgs (l1 ++ l2) = sent_msgs l1 ++ sent_msgs l2 := by
  induction l1 with
  | nil => rfl
  | cons e rest ih => cases e <;> simp [sent_msgs, ih]

theorem dvfs_accesses_append (l1 l2 : List scpi_event) :
    dvfs_accesses (l1 ++ l2) = dvfs_accesses l1 ++ dvfs_accesses l2 := by
  induction l1 with
  | nil => rfl
  | cons e rest ih => cases e <;> simp [dvfs_accesses, ih]

/-- The tail of `legacy_scpi_send_message` hands exactly one message to the
mailbox core: the transfer record of the channel. -/
theorem send_message_xfer_sent (env : mbox_env) (s : scpi_state) (chan : Nat) :
    sent_msgs (legacy_scpi_send_message_xfer env s chan).1.trace
      = sent_msgs s.trace ++ [(chan, (s.info.channels chan).t)] := by
  unfold legacy_scpi_send_message_xfer
  by_cases hs : env.send_ret < 0
  · simp [hs, sent_msgs_append, sent_msgs]
  · cases hr : env.reply <;>
      simp [hs, hr, wait_for_completion_timeout, sent_msgs_append, sent_msgs]

/-- The tail of `legacy_scpi_send_message` does not touch the DVFS cache. -/
theorem send_message_xfer_dvfs_accesses (env : mbox_env) (s : scpi_state) (chan : Nat) :
    dvfs_accesses (legacy_scpi_send_message_xfer env s chan).1.trace
      = dvfs_accesses s.trace := by
  unfold legacy_scpi_send_message_xfer
  by_cases hs : env.send_ret < 0
  · simp [hs, dvfs_accesses_append, dvfs_accesses]
  · cases hr : env.reply <;>
      simp [hs, hr, wait_for_completion_timeout, dvfs_accesses_append, dvfs_accesses]

/-- Sending a message never indexes the DVFS cache, whatever hook is
installed. -/
theorem send_message_dvfs_accesses (env : mbox_env) (s : scpi_state) (cmd arg : Nat)
    (tx_buf : Option (List Nat)) (tx_len : Nat) (rx_buf : Option (List Nat)) (rx_len : Nat) :
    dvfs_accesses (legacy_scpi_send_message env s cmd arg tx_buf tx_len rx_buf rx_len).1.trace
      = dvfs_accesses s.trace := by
  unfold legacy_scpi_send_message
  dsimp only
  split
  · split_ifs <;>
      simp [send_message_xfer_dvfs_accesses, dvfs_accesses_append, dvfs_accesses]
  · simp [send_message_xfer_dvfs_accesses, dvfs_accesses_append, dvfs_accesses]

/-- With the hooks of this driver, one call of `legacy_scpi_send_message`
hands exactly one message to the mailbox core, on the channel chosen by
`legacy_scpi_get_chan`, carrying the packed command and the caller's
buffers. -/
theorem send_message_sent (env : mbox_env) (s : scpi_state) (cmd arg : Nat)
    (tx_buf : Option (List Nat)) (tx_len : Nat) (rx_buf : Option (List Nat)) (rx_len : Nat)
    (hops : driver_ops s) :
    sent_msgs (legacy_scpi_send_message env s cmd arg tx_buf tx_len rx_buf rx_len).1.trace
      = sent_msgs s.trace ++ [(legacy_scpi_get_chan cmd % 2 ^ 8,
          { cmd := PACK_SCPI_CMD cmd arg tx_len % 2 ^ 32
            status := (s.info.channels (legacy_scpi_get_chan cmd % 2 ^ 8)).t.status
            tx_buf := tx_buf
            rx_buf := rx_buf
            tx_len := tx_len
            rx_len := rx_len
            done := false
            vendor_msg := if s.info.ops.isNone then .cmd_word else .vendor_xfer })] := by
  rcases hops with h | h
  · simp [legacy_scpi_send_message, h, send_message_xfer_sent, sent_msgs_append, sent_msgs]
  · simp [legacy_scpi_send_message, h, send_message_xfer_sent, sent_msgs_append, sent_msgs,
      scpi_rockchip_ops, rockchip_prepare]


/-- The tail of `legacy_scpi_send_message` leaves the vendor record of the
channel as it is. -/
theorem send_message_xfer_vendor_data (env : mbox_env) (s : scpi_state) (chan : Nat) :
    ((legacy_scpi_send_message_xfer env s chan).1.info.channels chan).vendor_data
      = (s.info.channels chan).vendor_data := by
  unfold legacy_scpi_send_message_xfer
  by_cases hs : env.send_ret < 0
  · simp [hs]
  · cases hr : env.reply <;>
      simp [hs, hr, wait_for_completion_timeout, handle_remote_msg_chan]

/-- With the Rockchip hook, the vendor record the message pointer refers to
holds the packed command word and the receive length after the call. -/
theorem send_message_rockchip_vendor_data (env : mbox_env) (s : scpi_state) (cmd arg : Nat)
    (tx_buf : Option (List Nat)) (tx_len : Nat) (rx_buf : Option (List Nat)) (rx_len : Nat)
    (h : s.info.ops = some scpi_rockchip_ops) :
    ((legacy_scpi_send_message env s cmd arg tx_buf tx_len rx_buf rx_len).1.info.channels
        (legacy_scpi_get_chan cmd % 2 ^ 8)).vendor_data.cmd
      = PACK_SCPI_CMD cmd arg tx_len % 2 ^ 32 ∧
    ((legacy_scpi_send_message env s cmd arg tx_buf tx_len rx_buf rx_len).1.info.channels
        (legacy_scpi_get_chan cmd % 2 ^ 8)).vendor_data.rx_size
      = u32_to_int rx_len := by
  constructor <;>
    simp [legacy_scpi_send_message, h, scpi_rockchip_ops, rockchip_prepare,
      send_message_xfer_vendor_data]

/-- Without a hook table, the vendor record of the channel is not touched. -/
theorem send_message_no_hook_vendor_data (env : mbox_env) (s : scpi_state) (cmd arg : Nat)
    (tx_buf : Option (List Nat)) (tx_len : Nat) (rx_buf : Option (List Nat)) (rx_len : Nat)
    (h : s.info.ops = none) :
    ((legacy_scpi_send_message env s cmd arg tx_buf tx_len rx_buf rx_len).1.info.channels
        (legacy_scpi_get_chan cmd % 2 ^ 8)).vendor_data
      = (s.info.channels (legacy_scpi_get_chan cmd % 2 ^ 8)).vendor_data := by
  simp [legacy_scpi_send_message, h, send_message_xfer_vendor_data]

/-- C7: `legacy_scpi_clk_set_val` hands exactly one message to the mailbox
core, on channel 1 (the high-priority channel), with the packed command word
`0x00800115` (command `0x15`, sender 1, size 8) and a transmit buffer of 8
bytes: bytes 0..3 are `rate mod 2^32` in little-endian order, bytes 4..5 are
`clk_id` (a `u16`) in little-endian order and bytes 6..7 are zero.  The
`tx_prepare` callback run on that transfer record copies those 8 bytes to the
start of the transmit area.  The message pointer handed to
`mbox_send_message` refers to that command word: without a hook table it is
`&msg->cmd`, the `cmd` member of the transfer record; with the Rockchip hook
it is the channel's vendor record, which holds the same command word and the
receive length 4.  The rest of the record is the 4-byte receive buffer
`stat` and a completion that is not yet signalled. -/
theorem legacy_scpi_clk_set_val_request (env : mbox_env) (s : scpi_state) (stat : List Nat)
    (clk_id rate : Nat) (hops : driver_ops s) :
    ∃ (t : legacy_scpi_xfer) (payload : List Nat),
      sent_msgs (legacy_scpi_clk_set_val env s stat clk_id rate).1.trace
        = sent_msgs s.trace ++ [(1, t)] ∧
      t.cmd = 0x00800115 ∧ CMD_SIZE t.cmd = 8 ∧ t.tx_len = 8 ∧ t.tx_buf = some payload ∧
      payload.length = 8 ∧ (∀ b ∈ payload, b < 256) ∧
      le_value (payload.take 4) = rate % 2 ^ 32 ∧
      le_value ((payload.drop 4).take 2) = clk_id % 2 ^ 16 ∧
      payload.drop 6 = [0, 0] ∧
      (∀ s1 : scpi_state, (s1.info.channels 1).t = t → ∀ i, i < 8 →
        (legacy_scpi_tx_prepare s1 1).mem ((s1.info.channels 1).tx_payload + i)
          = payload.getD i 0) ∧
      t.rx_buf = some stat ∧ t.rx_len = 4 ∧ t.done = false ∧
      t.status = (s.info.channels 1).t.status ∧
      (s.info.ops = none →
        t.vendor_msg = .cmd_word ∧
        ((legacy_scpi_clk_set_val env s stat clk_id rate).1.info.channels 1).vendor_data
          = (s.info.channels 1).vendor_data) ∧
      (s.info.ops = some scpi_rockchip_ops →
        t.vendor_msg = .vendor_xfer ∧
        ((legacy_scpi_clk_set_val env s stat clk_id rate).1.info.channels 1).vendor_data.cmd
          = 0x00800115 ∧
        ((legacy_scpi_clk_set_val env s stat clk_id rate).1.info.channels 1).vendor_data.rx_size
          = 4) := by
  have hch : legacy_scpi_get_chan SCPI_CMD_SET_CLOCK_VALUE % 2 ^ 8 = 1 := by decide
  have hcmd : PACK_SCPI_CMD SCPI_CMD_SET_CLOCK_VALUE SCPI_CL_CLOCKS sizeof_clk_set_value % 2 ^ 32
      = 0x00800115 := by decide
  have h4 : u32_to_int 4 = 4 := by decide
  refine ⟨{ cmd := 0x00800115
            status := (s.info.channels 1).t.status
            tx_buf := some [rate % 2 ^ 32 % 256, rate % 2 ^ 32 / 2 ^ 8 % 256,
              rate % 2 ^ 32 / 2 ^ 16 % 256, rate % 2 ^ 32 / 2 ^ 24 % 256,
              clk_id % 2 ^ 16 % 256, clk_id % 2 ^ 16 / 2 ^ 8 % 256, 0, 0]
            rx_buf := some stat
            tx_len := 8
            rx_len := 4
            done := false
            vendor_msg := if s.info.ops.isNone then .cmd_word else .vendor_xfer },
          [rate % 2 ^ 32 % 256, rate % 2 ^ 32 / 2 ^ 8 % 256,
              rate % 2 ^ 32 / 2 ^ 16 % 256, rate % 2 ^ 32 / 2 ^ 24 % 256,
              clk_id % 2 ^ 16 % 256, clk_id % 2 ^ 16 / 2 ^ 8 % 256, 0, 0],
          ?_, rfl, ?_, rfl, rfl, rfl, ?_, ?_, ?_, rfl, ?_, rfl, rfl, rfl, rfl, ?_, ?_⟩
  · unfold legacy_scpi_clk_set_val
    rw [send_message_sent _ _ _ _ _ _ _ _ hops]
    rfl
  · show CMD_SIZE 0x00800115 = 8
    decide
  · intro b hb
    simp only [List.mem_cons, List.mem_nil_iff, or_false] at hb
    omega
  · simp only [List.take, le_value]
    omega
  · simp only [List.drop, List.take, le_value]
    omega
  · intro s1 ht i hi
    unfold legacy_scpi_tx_prepare
    simp only [ht]
    simp [memcpy_toio, hi]
  · intro h
    refine ⟨by simp [h], ?_⟩
    have hv := send_message_no_hook_vendor_data env s SCPI_CMD_SET_CLOCK_VALUE SCPI_CL_CLOCKS
      (some (clk_set_value.bytes
        { id := cpu_to_le16 (clk_id % 2 ^ 16), rate := cpu_to_le32 (rate % 2 ^ 32),
          reserved := [0, 0] })) sizeof_clk_set_value (some stat) 4 h
    rw [hch] at hv
    exact hv
  · intro h
    refine ⟨by simp [h], ?_⟩
    have hv := send_message_rockchip_vendor_data env s SCPI_CMD_SET_CLOCK_VALUE SCPI_CL_CLOCKS
      (some (clk_set_value.bytes
        { id := cpu_to_le16 (clk_id % 2 ^ 16), rate := cpu_to_le32 (rate % 2 ^ 32),
          reserved := [0, 0] })) sizeof_clk_set_value (some stat) 4 h
    rw [hch, hcmd, h4] at hv
    exact hv

/-- The request of `legacy_scpi_clk_set_val` for clock 3 and rate
`0x1_2345_6789` (which does not fit 32 bits) on the two-channel instance
without hooks, and with the Rockchip hook, where the message is the vendor
record. -/
theorem legacy_scpi_clk_set_val_example :
    sent_msgs (legacy_scpi_clk_set_val env_reply_ok (state_init none) [0, 0, 0, 0] 3
      0x123456789).1.trace
      = [(1, { cmd := 0x00800115, status := 0
               tx_buf := some [0x89, 0x67, 0x45, 0x23, 3, 0, 0, 0]
               rx_buf := some [0, 0, 0, 0], tx_len := 8, rx_len := 4, done := false
               vendor_msg := .cmd_word })] ∧
    sent_msgs (legacy_scpi_clk_set_val env_reply_ok (state_init (some scpi_rockchip_ops))
      [0, 0, 0, 0] 3 0x123456789).1.trace
      = [(1, { cmd := 0x00800115, status := 0
               tx_buf := some [0x89, 0x67, 0x45, 0x23, 3, 0, 0, 0]
               rx_buf := some [0, 0, 0, 0], tx_len := 8, rx_len := 4, done := false
               vendor_msg := .vendor_xfer })] ∧
    ((legacy_scpi_clk_set_val env_reply_ok (state_init (some scpi_rockchip_ops))
      [0, 0, 0, 0] 3 0x123456789).1.info.channels 1).vendor_data.cmd = 0x00800115 ∧
    ((legacy_scpi_clk_set_val env_reply_ok (state_init (some scpi_rockchip_ops))
      [0, 0, 0, 0] 3 0x123456789).1.info.channels 1).vendor_data.rx_size = 4 := by
  decide

/-- C7, on the two-channel instance without hooks, clock 3 and rate
`0x1_2345_6789`. -/
theorem legacy_scpi_clk_set_val_request_witness :
    driver_ops (state_init none) ∧
    ∃ (t : legacy_scpi_xfer) (payload : List Nat),
      sent_msgs (legacy_scpi_clk_set_val env_reply_ok (state_init none) [0, 0, 0, 0] 3
        0x123456789).1.trace = sent_msgs (state_init none).trace ++ [(1, t)] ∧
      t.cmd = 0x00800115 ∧ CMD_SIZE t.cmd = 8 ∧ t.tx_len = 8 ∧ t.tx_buf = some payload ∧
      payload.length = 8 ∧ (∀ b ∈ payload, b < 256) ∧
      le_value (payload.take 4) = 0x123456789 % 2 ^ 32 ∧
      le_value ((payload.drop 4).take 2) = 3 % 2 ^ 16 ∧
      payload.drop 6 = [0, 0] ∧
      (∀ s1 : scpi_state, (s1.info.channels 1).t = t → ∀ i, i < 8 →
        (legacy_scpi_tx_prepare s1 1).mem ((s1.info.channels 1).tx_payload + i)
          = payload.getD i 0) ∧
      t.rx_buf = some [0, 0, 0, 0] ∧ t.rx_len = 4 ∧ t.done = false ∧
      t.status = ((state_init none).info.channels 1).t.status ∧
      t.vendor_msg = .cmd_word := by
  refine ⟨Or.inl rfl, ?_⟩
  obtain ⟨t, payload, h1, h2, h3, h4, h5, h6, h7, h8, h9, h10, h11, h12, h13, h14, h15, h16, _⟩ :=
    legacy_scpi_clk_set_val_request env_reply_ok (state_init none) [0, 0, 0, 0] 3 0x123456789
      (Or.inl rfl)
  exact ⟨t, payload, h1, h2, h3, h4, h5, h6, h7, h8, h9, h10, h11, h12, h13, h14, h15,
    (h16 rfl).1⟩


/-- C10: `legacy_scpi_dvfs_get_info` answers every domain that is 3
(`MAX_DVFS_DOMAINS`) or more with `ERR_PTR(-EINVAL)` and leaves the whole
state as it was: no message is handed to the mailbox and the cache is
neither read nor written.  For every domain, the indices with which one call
accesses the cache array are all equal to the domain and below 3. -/
theorem legacy_scpi_dvfs_get_info_domain_check (env : dvfs_env) (s : scpi_state)
    (domain : Nat) :
    (3 ≤ domain →
      legacy_scpi_dvfs_get_info env s domain = (s, .ERR_PTR (-EINVAL)) ∧
      IS_ERR (legacy_scpi_dvfs_get_info env s domain).2 = true ∧
      sent_msgs (legacy_scpi_dvfs_get_info env s domain).1.trace = sent_msgs s.trace ∧
      dvfs_accesses (legacy_scpi_dvfs_get_info env s domain).1.trace = dvfs_accesses s.trace ∧
      (legacy_scpi_dvfs_get_info env s domain).1.info.dvfs = s.info.dvfs) ∧
    ∃ l, dvfs_accesses (legacy_scpi_dvfs_get_info env s domain).1.trace
        = dvfs_accesses s.trace ++ l ∧ ∀ i ∈ l, i = domain ∧ i < 3 := by
  constructor
  · intro h
    have e : legacy_scpi_dvfs_get_info env s domain = (s, .ERR_PTR (-EINVAL)) := by
      unfold legacy_scpi_dvfs_get_info MAX_DVFS_DOMAINS
      rw [if_pos h]
    rw [e]
    have hi : IS_ERR (dvfs_info_ptr.ERR_PTR (-EINVAL)) = true := by decide
    exact ⟨rfl, hi, rfl, rfl, rfl⟩
  · by_cases h : 3 ≤ domain
    · refine ⟨[], ?_, by simp⟩
      unfold legacy_scpi_dvfs_get_info MAX_DVFS_DOMAINS
      rw [if_pos h]
      simp
    · have hd : domain < 3 := by omega
      unfold legacy_scpi_dvfs_get_info MAX_DVFS_DOMAINS
      rw [if_neg h]
      dsimp only
      split
      · refine ⟨[domain, domain], ?_, by simp [hd]⟩
        simp [dvfs_accesses_append, dvfs_accesses]
      · split_ifs
        · refine ⟨[domain], ?_, by simp [hd]⟩
          simp [send_message_dvfs_accesses, dvfs_accesses_append, dvfs_accesses]
        · refine ⟨[domain], ?_, by simp [hd]⟩
          simp [send_message_dvfs_accesses, dvfs_accesses_append, dvfs_accesses]
        · refine ⟨[domain], ?_, by simp [hd]⟩
          simp [send_message_dvfs_accesses, dvfs_accesses_append, dvfs_accesses]
        · refine ⟨[domain, domain], ?_, by simp [hd]⟩
          simp [send_message_dvfs_accesses, dvfs_accesses_append, dvfs_accesses]

/-- C10, at domain 3 on the two-channel instance. -/
theorem legacy_scpi_dvfs_get_info_domain_check_witness :
    (3 : Nat) ≤ 3 ∧
    legacy_scpi_dvfs_get_info
      { mbox := env_reply_ok, frame := fun _ => 0, kmalloc_ok := true, kcalloc_ok := true }
      (state_init none) 3 = (state_init none, .ERR_PTR (-EINVAL)) :=
  ⟨by decide,
   ((legacy_scpi_dvfs_get_info_domain_check
      { mbox := env_reply_ok, frame := fun _ => 0, kmalloc_ok := true, kcalloc_ok := true }
      (state_init none) 3).1 (by decide)).1⟩

end LegacyScpi

namespace KhadasMcuFan

/-- C8: `level_store` returns `-EINVAL` without issuing a register write and
without changing the recorded level exactly when the text does not parse
(`kstrtoul` returns non-zero) or the parsed value exceeds `MAX_LEVEL` (3).
For an accepted value whose register write succeeds, exactly that value is
written to the fan control register, the recorded level becomes that value
(so `level_show` prints it followed by a newline), and the result is the
byte count it was given (a count that fits `ssize_t`). -/
theorem level_store_spec (kstrtoul : String → Nat → Int × Nat) (wr : Int)
    (ctx : khadas_mcu_fan_ctx) (buf : String) (count : Nat) :
    (((level_store kstrtoul wr ctx buf count).2 = -EINVAL ∧
        (level_store kstrtoul wr ctx buf count).1.writes = ctx.writes ∧
        (level_store kstrtoul wr ctx buf count).1.level = ctx.level) ↔
      ((kstrtoul buf 10).1 ≠ 0 ∨ (kstrtoul buf 10).2 > 3)) ∧
    ((kstrtoul buf 10).1 = 0 → (kstrtoul buf 10).2 ≤ 3 → wr = 0 →
      (level_store kstrtoul wr ctx buf count).1.writes
        = ctx.writes ++ [(KHADAS_MCU_CMD_FAN_STATUS_CTRL_REG, (kstrtoul buf 10).2)] ∧
      (level_store kstrtoul wr ctx buf count).1.level = (kstrtoul buf 10).2 ∧
      (level_show (level_store kstrtoul wr ctx buf count).1).1
        = toString (kstrtoul buf 10).2 ++ "\n" ∧
      (count < 2 ^ 63 → (level_store kstrtoul wr ctx buf count).2 = (count : Int))) := by
  rcases hk : kstrtoul buf 10 with ⟨err, level⟩
  by_cases hbad : err ≠ 0 ∨ level > 3
  · have e : level_store kstrtoul wr ctx buf count = (ctx, -EINVAL) := by
      simp only [level_store, hk, MAX_LEVEL]
      rw [if_pos hbad]
    rw [e]
    refine ⟨⟨fun _ => hbad, fun _ => ⟨rfl, rfl, rfl⟩⟩, ?_⟩
    intro h1 h2
    exfalso
    rcases hbad with h | h
    · exact h h1
    · simp only at h2
      omega
  · have hl : level ≤ 3 := by omega
    have hm : level % 4294967296 = level := Nat.mod_eq_of_lt (by omega)
    have hlt : level < 4294967296 := by omega
    constructor
    · constructor
      · intro ⟨_, hw, _⟩
        exfalso
        simp only [level_store, hk, MAX_LEVEL] at hw
        rw [if_neg hbad] at hw
        by_cases h0 : wr = 0
        · simp [khadas_mcu_fan_set_level, regmap_write, h0] at hw
        · simp only [khadas_mcu_fan_set_level, regmap_write, h0, ne_eq, not_false_eq_true,
            if_true] at hw
          split_ifs at hw <;> simp at hw
      · intro h
        exact absurd h hbad
    · intro _ _ h0
      subst h0
      have e : level_store kstrtoul 0 ctx buf count =
          ({ writes := ctx.writes ++ [(KHADAS_MCU_CMD_FAN_STATUS_CTRL_REG, level)],
             level := level }, size_to_ssize count) := by
        simp only [level_store, hk, MAX_LEVEL]
        rw [if_neg hbad]
        simp [khadas_mcu_fan_set_level, regmap_write, hm, hlt]
      rw [e]
      refine ⟨rfl, rfl, rfl, ?_⟩
      intro hc
      show size_to_ssize count = (count : Int)
      unfold size_to_ssize
      have : count % 2 ^ 64 = count := Nat.mod_eq_of_lt (by omega)
      rw [this, if_pos hc]

/-- C8, on the text "2\n" of 2 bytes with a register write that succeeds. -/
theorem level_store_spec_witness :
    (kstrtoul_dec "2\n" 10).1 = 0 ∧ (kstrtoul_dec "2\n" 10).2 ≤ 3 ∧ (0 : Int) = 0 ∧
    (2 : Nat) < 2 ^ 63 ∧
    (level_store kstrtoul_dec 0 ⟨[], 0⟩ "2\n" 2).1.level = 2 ∧
    (level_store kstrtoul_dec 0 ⟨[], 0⟩ "2\n" 2).2 = 2 :=
  ⟨by decide, by decide, rfl, by decide,
   ((level_store_spec kstrtoul_dec 0 ⟨[], 0⟩ "2\n" 2).2 (by decide) (by decide) rfl).2.1,
   ((level_store_spec kstrtoul_dec 0 ⟨[], 0⟩ "2\n" 2).2 (by decide) (by decide) rfl).2.2.2
     (by decide)⟩


/-- C9: `khadas_mcu_fan_set_cur_state` returns `-EINVAL` and leaves the
context untouched when the context is missing or `state > 3`; returns 0
without a register write when `state` equals the recorded level; otherwise
it issues one write of `state` to the fan control register, and records
`state` as the level and returns 0 when the write succeeds, or returns the
write's error with the recorded level unchanged when it fails. -/
theorem khadas_mcu_fan_set_cur_state_spec (wr : Int) (devdata : Option khadas_mcu_fan_ctx)
    (state : Nat) :
    (devdata = none → khadas_mcu_fan_set_cur_state wr devdata state = (none, -EINVAL)) ∧
    ∀ ctx, devdata = some ctx →
      (state > 3 → khadas_mcu_fan_set_cur_state wr devdata state = (some ctx, -EINVAL)) ∧
      (state ≤ 3 → state = ctx.level →
        khadas_mcu_fan_set_cur_state wr devdata state = (some ctx, 0)) ∧
      (state ≤ 3 → state ≠ ctx.level → wr = 0 →
        khadas_mcu_fan_set_cur_state wr devdata state =
          (some { writes := ctx.writes ++ [(KHADAS_MCU_CMD_FAN_STATUS_CTRL_REG, state)],
                  level := state }, 0)) ∧
      (state ≤ 3 → state ≠ ctx.level → wr ≠ 0 →
        khadas_mcu_fan_set_cur_state wr devdata state =
          (some { writes := ctx.writes ++ [(KHADAS_MCU_CMD_FAN_STATUS_CTRL_REG, state)],
                  level := ctx.level }, wr)) := by
  constructor
  · intro h
    subst h
    rfl
  · intro ctx h
    subst h
    refine ⟨?_, ?_, ?_, ?_⟩
    · intro hs
      simp only [khadas_mcu_fan_set_cur_state, MAX_LEVEL]
      rw [if_pos hs]
    · intro hs he
      simp only [khadas_mcu_fan_set_cur_state, MAX_LEVEL]
      rw [if_neg (by omega), if_pos he]
    · intro hs hne h0
      have hm : state % 4294967296 = state := Nat.mod_eq_of_lt (by omega)
      simp only [khadas_mcu_fan_set_cur_state, MAX_LEVEL]
      rw [if_neg (by omega), if_neg hne]
      simp [khadas_mcu_fan_set_level, regmap_write, h0, hm]
    · intro hs hne h0
      have hm : state % 4294967296 = state := Nat.mod_eq_of_lt (by omega)
      simp only [khadas_mcu_fan_set_cur_state, MAX_LEVEL]
      rw [if_neg (by omega), if_neg hne]
      simp [khadas_mcu_fan_set_level, regmap_write, h0, hm]

/-- C9, from level 0 to state 2 with a register write that succeeds. -/
theorem khadas_mcu_fan_set_cur_state_spec_witness :
    (2 : Nat) ≤ 3 ∧ (2 : Nat) ≠ (⟨[], 0⟩ : khadas_mcu_fan_ctx).level ∧ (0 : Int) = 0 ∧
    khadas_mcu_fan_set_cur_state 0 (some ⟨[], 0⟩) 2 = (some ⟨[(0x88, 2)], 2⟩, 0) :=
  ⟨by decide, by decide, rfl,
   ((khadas_mcu_fan_set_cur_state_spec 0 (some ⟨[], 0⟩) 2).2 ⟨[], 0⟩ rfl).2.2.1
     (by decide) (by decide) rfl⟩

end KhadasMcuFan

namespace LegacyScpi

/-! ## The DVFS cache -/

/-- The tail of `legacy_scpi_send_message` leaves the DVFS cache as it is. -/
theorem send_message_xfer_dvfs (env : mbox_env) (s : scpi_state) (chan : Nat) :
    (legacy_scpi_send_message_xfer env s chan).1.info.dvfs = s.info.dvfs := by
  unfold legacy_scpi_send_message_xfer
  by_cases hs : env.send_ret < 0
  · simp [hs]
  · cases hr : env.reply <;> simp [hs, hr, wait_for_completion_timeout]

/-- Sending a message leaves the DVFS cache as it is, whatever hook is
installed. -/
theorem send_message_dvfs (env : mbox_env) (s : scpi_state) (cmd arg : Nat)
    (tx_buf : Option (List Nat)) (tx_len : Nat) (rx_buf : Option (List Nat)) (rx_len : Nat) :
    (legacy_scpi_send_message env s cmd arg tx_buf tx_len rx_buf rx_len).1.info.dvfs
      = s.info.dvfs := by
  unfold legacy_scpi_send_message
  dsimp only
  split
  · split_ifs <;> simp [send_message_xfer_dvfs]
  · simp [send_message_xfer_dvfs]

/-- A call that finds the entry of its domain filled returns that entry,
hands nothing to the mailbox and leaves the cache as it is. -/
theorem dvfs_get_info_hit (env : dvfs_env) (s : scpi_state) (domain : Nat)
    (info : scpi_dvfs_info) (hd : domain < 3)
    (hc : s.info.dvfs.getD domain none = some info) :
    (legacy_scpi_dvfs_get_info env s domain).2 = .ptr info ∧
    sent_msgs (legacy_scpi_dvfs_get_info env s domain).1.trace = sent_msgs s.trace ∧
    (legacy_scpi_dvfs_get_info env s domain).1.info.dvfs = s.info.dvfs := by
  have h : ¬ domain ≥ 3 := by omega
  unfold legacy_scpi_dvfs_get_info MAX_DVFS_DOMAINS
  rw [if_neg h]
  simp only [emit_info, hc]
  simp [sent_msgs_append, sent_msgs]

/-- A call that returns an error pointer leaves the cache as it is. -/
theorem dvfs_get_info_error (env : dvfs_env) (s : scpi_state) (domain : Nat) (e : Int)
    (he : (legacy_scpi_dvfs_get_info env s domain).2 = .ERR_PTR e) :
    (legacy_scpi_dvfs_get_info env s domain).1.info.dvfs = s.info.dvfs := by
  revert he
  unfold legacy_scpi_dvfs_get_info MAX_DVFS_DOMAINS
  by_cases h : domain ≥ 3
  · rw [if_pos h]; intro _; rfl
  · rw [if_neg h]
    dsimp only
    split
    · intro _; rfl
    · split_ifs
      · intro _; simp [send_message_dvfs]
      · intro _; simp [send_message_dvfs]
      · intro _; simp [send_message_dvfs]
      · intro he; simp at he

/-- A call that returns an info object has stored it in the cache entry of
its domain. -/
theorem dvfs_get_info_stored (env : dvfs_env) (s : scpi_state) (domain : Nat)
    (info : scpi_dvfs_info) (hlen : s.info.dvfs.length = 3)
    (hr : (legacy_scpi_dvfs_get_info env s domain).2 = .ptr info) :
    domain < 3 ∧
    (legacy_scpi_dvfs_get_info env s domain).1.info.dvfs.getD domain none = some info := by
  revert hr
  unfold legacy_scpi_dvfs_get_info MAX_DVFS_DOMAINS
  by_cases h : domain ≥ 3
  · rw [if_pos h]; intro hr; simp at hr
  · rw [if_neg h]
    have hd : domain < 3 := by omega
    dsimp only
    split
    · rename_i i hi
      intro hr
      simp only [dvfs_info_ptr.ptr.injEq] at hr
      subst hr
      exact ⟨hd, by simpa using hi⟩
    · split_ifs
      · intro hr; simp at hr
      · intro hr; simp at hr
      · intro hr; simp at hr
      · intro hr
        simp only [dvfs_info_ptr.ptr.injEq] at hr
        refine ⟨hd, ?_⟩
        rw [← hr]
        simp [send_message_dvfs, List.getD, hlen, hd]


/-- A call for one domain leaves the cache entries of the other domains as
they are. -/
theorem dvfs_get_info_other (env : dvfs_env) (s : scpi_state) (domain d2 : Nat)
    (hne : d2 ≠ domain) :
    (legacy_scpi_dvfs_get_info env s d2).1.info.dvfs.getD domain none
      = s.info.dvfs.getD domain none := by
  unfold legacy_scpi_dvfs_get_info MAX_DVFS_DOMAINS
  by_cases h : d2 ≥ 3
  · rw [if_pos h]
  · rw [if_neg h]
    dsimp only
    split
    · rfl
    · split_ifs <;> simp [send_message_dvfs, List.getD, List.getElem?_set, hne]

/-- With the hooks of this driver, a call that finds the entry of its domain
empty hands one `GET_DVFS_INFO` request for that domain to the mailbox, on
channel 0. -/
theorem dvfs_get_info_miss_sent (env : dvfs_env) (s : scpi_state) (domain : Nat)
    (hops : driver_ops s) (hd : domain < 3)
    (hc : s.info.dvfs.getD domain none = none) :
    ∃ t : legacy_scpi_xfer,
      sent_msgs (legacy_scpi_dvfs_get_info env s domain).1.trace
        = sent_msgs s.trace ++ [(0, t)] ∧
      t.cmd = 0x0010020d ∧ t.tx_buf = some [domain % 256] ∧ t.tx_len = 1 := by
  have h : ¬ domain ≥ 3 := by omega
  have hops1 : driver_ops (emit s (.dvfs_read domain)) := hops
  have hsent := send_message_sent env.mbox (emit s (.dvfs_read domain)) SCPI_CMD_GET_DVFS_INFO
    SCPI_CL_DVFS (some [domain % 2 ^ 8]) 1
    (some ((List.range sizeof_dvfs_info).map env.frame)) sizeof_dvfs_info hops1
  have hch : legacy_scpi_get_chan SCPI_CMD_GET_DVFS_INFO % 2 ^ 8 = 0 := by decide
  have hcmd : PACK_SCPI_CMD SCPI_CMD_GET_DVFS_INFO SCPI_CL_DVFS 1 % 2 ^ 32 = 0x0010020d := by
    decide
  rw [hch, hcmd] at hsent
  have hs0 : sent_msgs (emit s (.dvfs_read domain)).trace = sent_msgs s.trace := by
    simp [sent_msgs_append, sent_msgs]
  rw [hs0] at hsent
  generalize hT : ({ cmd := 0x0010020d
                     status := ((emit s (.dvfs_read domain)).info.channels 0).t.status
                     tx_buf := some [domain % 2 ^ 8]
                     rx_buf := some ((List.range sizeof_dvfs_info).map env.frame)
                     tx_len := 1
                     rx_len := sizeof_dvfs_info
                     done := false
                     vendor_msg := if (emit s (.dvfs_read domain)).info.ops.isNone
                       then vendor_msg_ref.cmd_word else vendor_msg_ref.vendor_xfer }
                    : legacy_scpi_xfer) = t at hsent
  refine ⟨t, ?_, by subst hT; rfl, by subst hT; rfl, by subst hT; rfl⟩
  unfold legacy_scpi_dvfs_get_info MAX_DVFS_DOMAINS
  rw [if_neg h]
  simp only [emit_info, hc]
  split_ifs
  · exact hsent
  · exact hsent
  · exact hsent
  · simp only [emit_trace, sent_msgs_append, hsent]
    simp [sent_msgs]


/-- C11: DVFS info is fetched at most once per domain.  (1) When a call of
`legacy_scpi_dvfs_get_info` returns an info object, the domain is below 3,
the cache entry of the domain holds that object afterwards, and a second
call for the same domain returns the same object without handing a message
to the mailbox and without changing the cache.  (2) The same holds for a
call in any later state whose entry for the domain still holds the object,
and (3) calls for other domains keep the entry.  (4) A call that fails
(returns an error pointer, whether from the transfer or from an allocation)
leaves the cache as it was, and (5) with the hooks of this driver a call
that finds the entry empty sends a `GET_DVFS_INFO` request for the domain to
the firmware. -/
theorem legacy_scpi_dvfs_get_info_once (env env2 : dvfs_env) (s : scpi_state)
    (domain : Nat) :
    (∀ info, s.info.dvfs.length = 3 →
      (legacy_scpi_dvfs_get_info env s domain).2 = .ptr info →
      domain < 3 ∧
      (legacy_scpi_dvfs_get_info env s domain).1.info.dvfs.getD domain none = some info ∧
      (legacy_scpi_dvfs_get_info env2 (legacy_scpi_dvfs_get_info env s domain).1 domain).2
        = .ptr info ∧
      sent_msgs
          (legacy_scpi_dvfs_get_info env2 (legacy_scpi_dvfs_get_info env s domain).1 domain).1.trace
        = sent_msgs (legacy_scpi_dvfs_get_info env s domain).1.trace ∧
      (legacy_scpi_dvfs_get_info env2 (legacy_scpi_dvfs_get_info env s domain).1 domain).1.info.dvfs
        = (legacy_scpi_dvfs_get_info env s domain).1.info.dvfs) ∧
    (∀ info (s2 : scpi_state), domain < 3 → s2.info.dvfs.getD domain none = some info →
      (legacy_scpi_dvfs_get_info env2 s2 domain).2 = .ptr info ∧
      sent_msgs (legacy_scpi_dvfs_get_info env2 s2 domain).1.trace = sent_msgs s2.trace ∧
      (legacy_scpi_dvfs_get_info env2 s2 domain).1.info.dvfs = s2.info.dvfs) ∧
    (∀ d2, d2 ≠ domain →
      (legacy_scpi_dvfs_get_info env2 s d2).1.info.dvfs.getD domain none
        = s.info.dvfs.getD domain none) ∧
    (∀ e, (legacy_scpi_dvfs_get_info env s domain).2 = .ERR_PTR e →
      (legacy_scpi_dvfs_get_info env s domain).1.info.dvfs = s.info.dvfs) ∧
    (driver_ops s → domain < 3 → s.info.dvfs.getD domain none = none →
      ∃ t : legacy_scpi_xfer,
        sent_msgs (legacy_scpi_dvfs_get_info env s domain).1.trace
          = sent_msgs s.trace ++ [(0, t)] ∧
        t.cmd = 0x0010020d ∧ t.tx_buf = some [domain % 256] ∧ t.tx_len = 1) := by
  refine ⟨?_, ?_, ?_, ?_, ?_⟩
  · intro info hlen hr
    obtain ⟨hd, hst⟩ := dvfs_get_info_stored env s domain info hlen hr
    exact ⟨hd, hst, dvfs_get_info_hit env2 _ domain info hd hst⟩
  · intro info s2 hd hc
    exact dvfs_get_info_hit env2 s2 domain info hd hc
  · intro d2 hne
    exact dvfs_get_info_other env2 s domain d2 hne
  · intro e he
    exact dvfs_get_info_error env s domain e he
  · intro hops hd hc
    exact dvfs_get_info_miss_sent env s domain hops hd hc

/-- C11, on the two-channel instance, domain 1 and a reply that is zero
everywhere (status 0, no operating points): the first call returns an info
object, the second call returns the same object and sends nothing. -/
theorem legacy_scpi_dvfs_get_info_once_witness :
    (state_init none).info.dvfs.length = 3 ∧
    (legacy_scpi_dvfs_get_info
      { mbox := env_reply_ok, frame := fun _ => 0, kmalloc_ok := true, kcalloc_ok := true }
      (state_init none) 1).2 = .ptr { count := 0, latency := 0, opps := [] } ∧
    (legacy_scpi_dvfs_get_info
      { mbox := env_no_reply, frame := fun _ => 0, kmalloc_ok := false, kcalloc_ok := false }
      (legacy_scpi_dvfs_get_info
        { mbox := env_reply_ok, frame := fun _ => 0, kmalloc_ok := true, kcalloc_ok := true }
        (state_init none) 1).1 1).2 = .ptr { count := 0, latency := 0, opps := [] } :=
  ⟨by decide, by decide,
   ((legacy_scpi_dvfs_get_info_once
      { mbox := env_reply_ok, frame := fun _ => 0, kmalloc_ok := true, kcalloc_ok := true }
      { mbox := env_no_reply, frame := fun _ => 0, kmalloc_ok := false, kcalloc_ok := false }
      (state_init none) 1).1 { count := 0, latency := 0, opps := [] }
      (by decide) (by decide)).2.2.1⟩


/-! ## Decoding the DVFS reply -/

theorem memcpy_fromio_getD (dst : List Nat) (mem : iomem) (src n o : Nat) (h : o < n) :
    (memcpy_fromio dst mem src n).getD o 0 = mem (src + o) := by
  unfold memcpy_fromio
  simp [List.getD, List.getElem?_append_left, h]

/-- Channel after the tail of `legacy_scpi_send_message` when the send
succeeded and the reply arrived: the receive callback has stored the status
word and the payload, and the lock is released. -/
theorem send_message_xfer_reply_chan (env : mbox_env) (s : scpi_state) (chan : Nat)
    (m : iomem) (hsend : 0 ≤ env.send_ret) (hr : env.reply = some m) :
    (legacy_scpi_send_message_xfer env s chan).1.info.channels chan =
      { s.info.channels chan with
        xfers_lock := false
        t := { (s.info.channels chan).t with
          status := le32_at m (s.info.channels chan).rx_payload
          rx_buf := if (s.info.channels chan).t.rx_len ≠ 0 then
              (s.info.channels chan).t.rx_buf.map (fun b =>
                memcpy_fromio b m ((s.info.channels chan).rx_payload + 4)
                  (s.info.channels chan).t.rx_len)
            else (s.info.channels chan).t.rx_buf
          done := true } } := by
  have hs : ¬ env.send_ret < 0 := by omega
  simp [legacy_scpi_send_message_xfer, hs, hr, wait_for_completion_timeout,
    handle_remote_msg_chan]

/-- Receive buffer after `legacy_scpi_send_message` when the send succeeded
and the reply arrived: its first `rx_len` bytes are the bytes at offset 4 of
the channel's receive area. -/
theorem send_message_rx_buf (env : mbox_env) (s : scpi_state) (cmd arg : Nat)
    (tx_buf : Option (List Nat)) (tx_len : Nat) (rx_buf : List Nat) (rx_len : Nat)
    (m : iomem) (hops : driver_ops s) (hsend : 0 ≤ env.send_ret) (hr : env.reply = some m)
    (hlen : rx_len ≠ 0) :
    ((legacy_scpi_send_message env s cmd arg tx_buf tx_len (some rx_buf) rx_len).1.info.channels
        (legacy_scpi_get_chan cmd % 2 ^ 8)).t.rx_buf
      = some (memcpy_fromio rx_buf m
          ((s.info.channels (legacy_scpi_get_chan cmd % 2 ^ 8)).rx_payload + 4) rx_len) := by
  rcases hops with h | h
  · simp [legacy_scpi_send_message, h, send_message_xfer_reply_chan _ _ _ m hsend hr, hlen]
  · simp [legacy_scpi_send_message, h, send_message_xfer_reply_chan _ _ _ m hsend hr, hlen,
      scpi_rockchip_ops, rockchip_prepare]


/-- Result of a successful `legacy_scpi_dvfs_get_info` that had to query the
firmware, in terms of the reply `m`: `byte o` is byte `o` of the local
`buf` after the transfer for `o` below `sizeof_dvfs_info`, and the byte of
the stack frame at that offset beyond. -/
theorem dvfs_get_info_decode (env : dvfs_env) (s : scpi_state) (domain : Nat) (m : iomem)
    (hops : driver_ops s) (hd : domain < 3) (hc : s.info.dvfs.getD domain none = none)
    (hsend : 0 ≤ env.mbox.send_ret) (hr : env.mbox.reply = some m)
    (hst : le32_at m (s.info.channels 0).rx_payload = 0)
    (hk1 : env.kmalloc_ok = true) (hk2 : env.kcalloc_ok = true) :
    (legacy_scpi_dvfs_get_info env s domain).2 =
      .ptr
        { count := DVFS_OPP_COUNT (le32_to_cpu (fun o =>
            if o < sizeof_dvfs_info then m ((s.info.channels 0).rx_payload + 4 + o)
            else env.frame o) 0)
          latency := (DVFS_LATENCY (le32_to_cpu (fun o =>
            if o < sizeof_dvfs_info then m ((s.info.channels 0).rx_payload + 4 + o)
            else env.frame o) 0) * 1000) % 2 ^ 32
          opps := (List.range (DVFS_OPP_COUNT (le32_to_cpu (fun o =>
            if o < sizeof_dvfs_info then m ((s.info.channels 0).rx_payload + 4 + o)
            else env.frame o) 0))).map (fun i =>
              ({ freq := le32_to_cpu (fun o =>
                    if o < sizeof_dvfs_info then m ((s.info.channels 0).rx_payload + 4 + o)
                    else env.frame o) (4 + 8 * i)
                 m_volt := le32_to_cpu (fun o =>
                    if o < sizeof_dvfs_info then m ((s.info.channels 0).rx_payload + 4 + o)
                    else env.frame o) (4 + 8 * i + 4) } : scpi_opp)) } := by
  have h : ¬ domain ≥ 3 := by omega
  have hops1 : driver_ops (emit s (.dvfs_read domain)) := hops
  have hch : legacy_scpi_get_chan SCPI_CMD_GET_DVFS_INFO % 2 ^ 8 = 0 := by decide
  have hret := legacy_scpi_send_message_ret env.mbox (emit s (.dvfs_read domain))
    SCPI_CMD_GET_DVFS_INFO SCPI_CL_DVFS (some [domain % 2 ^ 8]) 1
    (some ((List.range sizeof_dvfs_info).map env.frame)) sizeof_dvfs_info hops1
  rw [if_neg (by omega), hr, hch] at hret
  simp only [emit_info, hst] at hret
  have hret0 : (legacy_scpi_send_message env.mbox (emit s (.dvfs_read domain))
    SCPI_CMD_GET_DVFS_INFO SCPI_CL_DVFS (some [domain % 2 ^ 8]) 1
    (some ((List.range sizeof_dvfs_info).map env.frame)) sizeof_dvfs_info).2 = 0 := by
    rw [hret]; decide
  have hbuf := send_message_rx_buf env.mbox (emit s (.dvfs_read domain))
    SCPI_CMD_GET_DVFS_INFO SCPI_CL_DVFS (some [domain % 2 ^ 8]) 1
    ((List.range sizeof_dvfs_info).map env.frame) sizeof_dvfs_info m hops1 hsend hr
    (by decide)
  rw [hch] at hbuf
  simp only [emit_info] at hbuf
  have hbyte : (fun o => if o < sizeof_dvfs_info then
        (memcpy_fromio ((List.range sizeof_dvfs_info).map env.frame) m
          ((s.info.channels 0).rx_payload + 4) sizeof_dvfs_info).getD o 0
        else env.frame o)
      = (fun o => if o < sizeof_dvfs_info then m ((s.info.channels 0).rx_payload + 4 + o)
        else env.frame o) := by
    funext o
    by_cases ho : o < sizeof_dvfs_info
    · rw [if_pos ho, if_pos ho, memcpy_fromio_getD _ _ _ _ _ ho]
    · rw [if_neg ho, if_neg ho]
  unfold legacy_scpi_dvfs_get_info MAX_DVFS_DOMAINS
  rw [if_neg h]
  simp only [emit_info, hc]
  rw [if_neg (by rw [hret0]; simp)]
  simp only [hk1, hk2, Bool.not_true, Bool.false_eq_true, if_false, rx_result, hch, hbuf,
    Option.getD_some, hbyte]


theorem le32_to_cpu_in_buf (m : iomem) (frame : Nat → Nat) (base o : Nat)
    (ho : o + 3 < sizeof_dvfs_info) :
    le32_to_cpu (fun o => if o < sizeof_dvfs_info then m (base + o) else frame o) o
      = le32_at m (base + o) := by
  have h0 : o < sizeof_dvfs_info := by omega
  have h1 : o + 1 < sizeof_dvfs_info := by omega
  have h2 : o + 2 < sizeof_dvfs_info := by omega
  unfold le32_to_cpu le32_at
  simp only [h0, h1, h2, ho, if_true, Nat.add_assoc]

/-- What holds of the decoding for every header word: with `h` the
little-endian word at offset 4 of the receive area, a successful call that
queried the firmware reports `count = (h >> 8) & 0xff` and
`latency = (h >> 16) * 1000`, which is at most 65,535,000; the result has
`count` operating points, and operating point `i` equals entry `i` of the
reply for every `i` below `MAX_DVFS_OPPS` (16). -/
theorem dvfs_get_info_decode_in_range (env : dvfs_env) (s : scpi_state) (domain : Nat)
    (m : iomem) (hops : driver_ops s) (hd : domain < 3)
    (hc : s.info.dvfs.getD domain none = none)
    (hsend : 0 ≤ env.mbox.send_ret) (hr : env.mbox.reply = some m)
    (hst : le32_at m (s.info.channels 0).rx_payload = 0)
    (hk1 : env.kmalloc_ok = true) (hk2 : env.kcalloc_ok = true) :
    ∃ info : scpi_dvfs_info,
      (legacy_scpi_dvfs_get_info env s domain).2 = .ptr info ∧
      info.count = (le32_at m ((s.info.channels 0).rx_payload + 4) >>> 8) &&& 0xff ∧
      info.latency = (le32_at m ((s.info.channels 0).rx_payload + 4) >>> 16) * 1000 ∧
      info.latency ≤ 65535000 ∧
      info.opps.length = info.count ∧
      ∀ i, i < info.count → i < 16 →
        info.opps.getD i { freq := 0, m_volt := 0 } =
          { freq := le32_at m ((s.info.channels 0).rx_payload + 8 + 8 * i)
            m_volt := le32_at m ((s.info.channels 0).rx_payload + 12 + 8 * i) } := by
  have hdec := dvfs_get_info_decode env s domain m hops hd hc hsend hr hst hk1 hk2
  have hh := le32_to_cpu_in_buf m env.frame ((s.info.channels 0).rx_payload + 4) 0 (by decide)
  have hlt := le32_at_lt m ((s.info.channels 0).rx_payload + 4)
  rw [hh] at hdec
  simp only [Nat.add_zero] at hdec
  have hsh : le32_at m ((s.info.channels 0).rx_payload + 4) >>> 16 ≤ 65535 := by
    rw [Nat.shiftRight_eq_div_pow]
    omega
  refine ⟨_, hdec, rfl, ?_, ?_, ?_, ?_⟩
  · show DVFS_LATENCY _ * 1000 % 2 ^ 32 = _
    unfold DVFS_LATENCY
    exact Nat.mod_eq_of_lt (by omega)
  · show DVFS_LATENCY _ * 1000 % 2 ^ 32 ≤ _
    unfold DVFS_LATENCY
    rw [Nat.mod_eq_of_lt (by omega)]
    omega
  · simp
  · intro i hi h16
    have e1 := le32_to_cpu_in_buf m env.frame ((s.info.channels 0).rx_payload + 4) (4 + 8 * i)
      (by unfold sizeof_dvfs_info MAX_DVFS_OPPS; omega)
    have e2 := le32_to_cpu_in_buf m env.frame ((s.info.channels 0).rx_payload + 4)
      (4 + 8 * i + 4) (by unfold sizeof_dvfs_info MAX_DVFS_OPPS; omega)
    have a1 : (s.info.channels 0).rx_payload + 4 + (4 + 8 * i)
        = (s.info.channels 0).rx_payload + 8 + 8 * i := by omega
    have a2 : (s.info.channels 0).rx_payload + 4 + (4 + 8 * i + 4)
        = (s.info.channels 0).rx_payload + 12 + 8 * i := by omega
    rw [a1] at e1
    rw [a2] at e2
    simp only [List.getD_eq_getElem?_getD]
    rw [List.getElem?_map, List.getElem?_range hi]
    simp only [Option.map_some', Option.getD_some, e1, e2]

/-- C12, the failing input: the reply announces 17 operating points (header
`0x00001100`) and carries the frequency 1000 in its entry 16.  The local
`buf` holds 16 entries (`MAX_DVFS_OPPS`) and only `sizeof(buf)` bytes of the
reply are copied, so operating point 16 of the result is read beyond `buf`:
its frequency is `0xaaaaaaaa`, the bytes of the stack frame, not the 1000 of
the reply. -/
theorem legacy_scpi_dvfs_get_info_count_beyond_buf :
    ∃ info : scpi_dvfs_info,
      (legacy_scpi_dvfs_get_info env_count_17 (state_init none) 0).2 = .ptr info ∧
      info.count = 17 ∧ info.opps.length = 17 ∧
      le32_at mem_count_17 (((state_init none).info.channels 0).rx_payload + 8 + 8 * 16) = 1000 ∧
      (info.opps.getD 16 { freq := 0, m_volt := 0 }).freq = 0xaaaaaaaa ∧
      (info.opps.getD 16 { freq := 0, m_volt := 0 }).freq ≠
        le32_at mem_count_17 (((state_init none).info.channels 0).rx_payload + 8 + 8 * 16) := by
  refine ⟨_, rfl, ?_, ?_, ?_, ?_, ?_⟩ <;> decide


/-! ## Lock discipline -/

theorem mutex_lock_other (s : scpi_state) (i j : Nat) (h : j ≠ i) :
    (mutex_lock s i).info.channels j = s.info.channels j := by
  simp [mutex_lock, set_chan_other, h]

theorem mutex_unlock_other (s : scpi_state) (i j : Nat) (h : j ≠ i) :
    (mutex_unlock s i).info.channels j = s.info.channels j := by
  simp [mutex_unlock, set_chan_other, h]

theorem handle_remote_msg_other (s : scpi_state) (i j : Nat) (h : j ≠ i) :
    (legacy_scpi_handle_remote_msg s i).info.channels j = s.info.channels j := by
  simp [legacy_scpi_handle_remote_msg, set_chan_other, h]

/-- Steps of the tail of `legacy_scpi_send_message`: the send, the wait
unless the send failed, and the unlock. -/
theorem send_message_xfer_trace (env : mbox_env) (s : scpi_state) (chan : Nat) :
    (legacy_scpi_send_message_xfer env s chan).1.trace =
      s.trace ++ (scpi_event.mbox_send chan (s.info.channels chan).t ::
        ((if env.send_ret < 0 then [] else [scpi_event.wait chan MAX_RX_TIMEOUT_MS])
          ++ [scpi_event.unlock chan])) := by
  unfold legacy_scpi_send_message_xfer
  by_cases hs : env.send_ret < 0
  · simp [hs]
  · cases hr : env.reply <;> simp [hs, hr, wait_for_completion_timeout]

/-- The tail of `legacy_scpi_send_message` leaves the channel unlocked. -/
theorem send_message_xfer_unlocked (env : mbox_env) (s : scpi_state) (chan : Nat) :
    ((legacy_scpi_send_message_xfer env s chan).1.info.channels chan).xfers_lock = false := by
  unfold legacy_scpi_send_message_xfer
  by_cases hs : env.send_ret < 0
  · simp [hs]
  · cases hr : env.reply <;> simp [hs, hr, wait_for_completion_timeout]

/-- The tail of `legacy_scpi_send_message` does not touch other channels. -/
theorem send_message_xfer_other (env : mbox_env) (s : scpi_state) (chan j : Nat)
    (h : j ≠ chan) :
    (legacy_scpi_send_message_xfer env s chan).1.info.channels j = s.info.channels j := by
  unfold legacy_scpi_send_message_xfer
  by_cases hs : env.send_ret < 0
  · simp [hs, mutex_unlock_other, h]
  · cases hr : env.reply <;>
      simp [hs, hr, wait_for_completion_timeout, mutex_unlock_other, handle_remote_msg_other, h]


/-- C15: every call of `legacy_scpi_send_message`, with any hook and any
outcome of the mailbox exchange, adds to the trace the lock of the chosen
channel, then the write of the transfer record, then the hook if there is
one, then (unless the hook failed) the mailbox send and (unless the send
failed) the wait, and last the unlock of the channel: the lock is taken once
and released once, everything else happens in between, the channel is
unlocked afterwards and the lock state of the other channels is as it
was. -/
theorem legacy_scpi_send_message_lock_discipline (env : mbox_env) (s : scpi_state)
    (cmd arg : Nat) (tx_buf : Option (List Nat)) (tx_len : Nat)
    (rx_buf : Option (List Nat)) (rx_len : Nat) :
    (∃ pre post : List scpi_event,
      (legacy_scpi_send_message env s cmd arg tx_buf tx_len rx_buf rx_len).1.trace
        = s.trace ++ (scpi_event.lock (legacy_scpi_get_chan cmd % 2 ^ 8) ::
            scpi_event.xfer_write (legacy_scpi_get_chan cmd % 2 ^ 8) ::
            (pre ++ post ++ [scpi_event.unlock (legacy_scpi_get_chan cmd % 2 ^ 8)])) ∧
      (pre = [] ∨ pre = [scpi_event.prepare (legacy_scpi_get_chan cmd % 2 ^ 8)]) ∧
      (post = [] ∨ ∃ t,
        post = [scpi_event.mbox_send (legacy_scpi_get_chan cmd % 2 ^ 8) t] ∨
        post = [scpi_event.mbox_send (legacy_scpi_get_chan cmd % 2 ^ 8) t,
                scpi_event.wait (legacy_scpi_get_chan cmd % 2 ^ 8) MAX_RX_TIMEOUT_MS])) ∧
    ((legacy_scpi_send_message env s cmd arg tx_buf tx_len rx_buf rx_len).1.info.channels
      (legacy_scpi_get_chan cmd % 2 ^ 8)).xfers_lock = false ∧
    ∀ j, j ≠ legacy_scpi_get_chan cmd % 2 ^ 8 →
      ((legacy_scpi_send_message env s cmd arg tx_buf tx_len rx_buf rx_len).1.info.channels
        j).xfers_lock = (s.info.channels j).xfers_lock := by
  unfold legacy_scpi_send_message
  dsimp only
  generalize legacy_scpi_get_chan cmd % 2 ^ 8 = c
  split
  · split_ifs with hret
    · refine ⟨⟨[scpi_event.prepare c], [], ?_, Or.inr rfl, Or.inl rfl⟩, ?_, ?_⟩
      · simp
      · simp
      · intro j hj
        simp [mutex_unlock_other, mutex_lock_other, set_chan_other, hj]
    · by_cases hs : env.send_ret < 0
      · refine ⟨⟨[scpi_event.prepare c], [scpi_event.mbox_send c ?t1], ?h1, Or.inr rfl,
          Or.inr ⟨_, Or.inl rfl⟩⟩, ?_, ?_⟩
        case h1 =>
          rw [send_message_xfer_trace]
          simp only [emit_trace, set_chan_trace, mutex_lock_trace, if_pos hs, List.append_assoc,
            List.cons_append, List.nil_append]
          exact rfl
        · simp [send_message_xfer_unlocked]
        · intro j hj
          simp [send_message_xfer_other, mutex_lock_other, set_chan_other, hj]
      · refine ⟨⟨[scpi_event.prepare c],
          [scpi_event.mbox_send c ?t2, scpi_event.wait c MAX_RX_TIMEOUT_MS], ?h2,
          Or.inr rfl, Or.inr ⟨_, Or.inr rfl⟩⟩, ?_, ?_⟩
        case h2 =>
          rw [send_message_xfer_trace]
          simp only [emit_trace, set_chan_trace, mutex_lock_trace, if_neg hs, List.append_assoc,
            List.cons_append, List.nil_append]
          exact rfl
        · simp [send_message_xfer_unlocked]
        · intro j hj
          simp [send_message_xfer_other, mutex_lock_other, set_chan_other, hj]
  · by_cases hs : env.send_ret < 0
    · refine ⟨⟨[], [scpi_event.mbox_send c ?t3], ?h3, Or.inl rfl, Or.inr ⟨_, Or.inl rfl⟩⟩,
        ?_, ?_⟩
      case h3 =>
        rw [send_message_xfer_trace]
        simp only [emit_trace, set_chan_trace, mutex_lock_trace, if_pos hs, List.append_assoc,
          List.cons_append, List.nil_append]
        exact rfl
      · simp [send_message_xfer_unlocked]
      · intro j hj
        simp [send_message_xfer_other, mutex_lock_other, set_chan_other, hj]
    · refine ⟨⟨[], [scpi_event.mbox_send c ?t4, scpi_event.wait c MAX_RX_TIMEOUT_MS], ?h4,
        Or.inl rfl, Or.inr ⟨_, Or.inr rfl⟩⟩, ?_, ?_⟩
      case h4 =>
        rw [send_message_xfer_trace]
        simp only [emit_trace, set_chan_trace, mutex_lock_trace, if_neg hs, List.append_assoc,
          List.cons_append, List.nil_append]
        exact rfl
      · simp [send_message_xfer_unlocked]
      · intro j hj
        simp [send_message_xfer_other, mutex_lock_other, set_chan_other, hj]


/-! ## Payload marshaling -/

/-- C16, as stated, fails: the receive callback also signals the completion
`done` of the transfer record.  On the two-channel instance, whose transfer
records have `done` clear, the field is set after the callback. -/
theorem legacy_scpi_handle_remote_msg_signals_done :
    ((state_init none).info.channels 0).t.done = false ∧
    ((legacy_scpi_handle_remote_msg (state_init none) 0).info.channels 0).t.done = true ∧
    ((legacy_scpi_handle_remote_msg (state_init none) 0).info.channels 0).t.done
      ≠ ((state_init none).info.channels 0).t.done := by
  decide


theorem memcpy_fromio_take (dst : List Nat) (mem : iomem) (src n : Nat) :
    (memcpy_fromio dst mem src n).take n = (List.range n).map (fun i => mem (src + i)) := by
  unfold memcpy_fromio
  rw [List.take_append_of_le_length (by simp)]
  simp

theorem memcpy_fromio_drop (dst : List Nat) (mem : iomem) (src n : Nat) :
    (memcpy_fromio dst mem src n).drop n = dst.drop n := by
  unfold memcpy_fromio
  rw [List.drop_append_of_le_length (by simp)]
  simp

/-- For the built-in hook (or none), a channel the probe loop sets up has
its transmit area at half the size of the mapped region. -/
theorem probe_chan_tx_payload (env : probe_env) (kmalloc_ok : Bool) (rockchip : Bool)
    (pchan ch : legacy_scpi_chan) (res : resource) (hres : env.res = some res)
    (hok : legacy_scpi_probe_chan env
      (if rockchip then some (rockchip_init kmalloc_ok) else none) pchan = .ok ch) :
    env.ioremap res.start (resource_size res) = some ch.rx_payload ∧
    ch.tx_payload = ch.rx_payload + resource_size res / 2 := by
  revert hok
  unfold legacy_scpi_probe_chan
  rw [hres]
  dsimp only
  cases hio : env.ioremap res.start (resource_size res) with
  | none => intro hok; simp at hok
  | some rx =>
    have hsh : resource_size res >>> 1 = resource_size res / 2 := by
      rw [Nat.shiftRight_eq_div_pow]
    cases rockchip
    · simp only [Bool.false_eq_true, if_false, legacy_scpi_probe_chan_request]
      cases hreq : env.request_err with
      | none =>
        intro hok
        simp only [Except.ok.injEq] at hok
        subst hok
        exact ⟨rfl, by simp [hsh]⟩
      | some e => intro hok; simp at hok
    · cases kmalloc_ok
      · simp [rockchip_init, ENOMEM]
      · simp only [if_true, rockchip_init, Bool.not_true, Bool.false_eq_true, if_false,
          ne_eq, not_true_eq_false, legacy_scpi_probe_chan_request]
        cases hreq : env.request_err with
        | none =>
          intro hok
          simp only [Except.ok.injEq] at hok
          subst hok
          exact ⟨rfl, by simp [hsh]⟩
        | some e => intro hok; simp at hok


/-- C16, amended: the receive callback sets the transfer status to the
little-endian word at offset 0 of the channel's receive area, copies exactly
`rx_len` bytes from offset 4 of that area to the start of `rx_buf` (nothing
when `rx_len` is 0), signals the completion `done`, and leaves `cmd`,
`tx_buf`, `tx_len`, `rx_len` and `vendor_msg` as they were.
`legacy_scpi_tx_prepare` copies exactly `tx_len` bytes of `tx_buf` to the
start of the transmit area and nothing when `tx_buf` is NULL or `tx_len` is
0; the probe routine places the transmit area at half the size of the mapped
region. -/
theorem legacy_scpi_payload_marshaling (s : scpi_state) (idx : Nat) :
    ((legacy_scpi_handle_remote_msg s idx).info.channels idx).t.status
      = le32_at s.mem (s.info.channels idx).rx_payload ∧
    ((s.info.channels idx).t.rx_len = 0 →
      ((legacy_scpi_handle_remote_msg s idx).info.channels idx).t.rx_buf
        = (s.info.channels idx).t.rx_buf) ∧
    (∀ b, (s.info.channels idx).t.rx_buf = some b →
      ∃ b1, ((legacy_scpi_handle_remote_msg s idx).info.channels idx).t.rx_buf = some b1 ∧
        b1.take (s.info.channels idx).t.rx_len
          = (List.range (s.info.channels idx).t.rx_len).map
              (fun i => s.mem ((s.info.channels idx).rx_payload + 4 + i)) ∧
        b1.drop (s.info.channels idx).t.rx_len = b.drop (s.info.channels idx).t.rx_len) ∧
    ((legacy_scpi_handle_remote_msg s idx).info.channels idx).t.cmd
      = (s.info.channels idx).t.cmd ∧
    ((legacy_scpi_handle_remote_msg s idx).info.channels idx).t.tx_buf
      = (s.info.channels idx).t.tx_buf ∧
    ((legacy_scpi_handle_remote_msg s idx).info.channels idx).t.tx_len
      = (s.info.channels idx).t.tx_len ∧
    ((legacy_scpi_handle_remote_msg s idx).info.channels idx).t.rx_len
      = (s.info.channels idx).t.rx_len ∧
    ((legacy_scpi_handle_remote_msg s idx).info.channels idx).t.vendor_msg
      = (s.info.channels idx).t.vendor_msg ∧
    ((legacy_scpi_handle_remote_msg s idx).info.channels idx).t.done = true ∧
    (∀ b, (s.info.channels idx).t.tx_buf = some b → (s.info.channels idx).t.tx_len ≠ 0 →
      (∀ i, i < (s.info.channels idx).t.tx_len →
        (legacy_scpi_tx_prepare s idx).mem ((s.info.channels idx).tx_payload + i)
          = b.getD i 0) ∧
      (∀ a, (a < (s.info.channels idx).tx_payload ∨
          (s.info.channels idx).tx_payload + (s.info.channels idx).t.tx_len ≤ a) →
        (legacy_scpi_tx_prepare s idx).mem a = s.mem a)) ∧
    (((s.info.channels idx).t.tx_buf = none ∨ (s.info.channels idx).t.tx_len = 0) →
      (legacy_scpi_tx_prepare s idx).mem = s.mem) ∧
    (legacy_scpi_tx_prepare s idx).info = s.info ∧
    (∀ (env : probe_env) (kmalloc_ok rockchip : Bool) (pchan ch : legacy_scpi_chan)
        (res : resource), env.res = some res →
      legacy_scpi_probe_chan env
        (if rockchip then some (rockchip_init kmalloc_ok) else none) pchan = .ok ch →
      env.ioremap res.start (resource_size res) = some ch.rx_payload ∧
      ch.tx_payload = ch.rx_payload + resource_size res / 2) := by
  have hch := handle_remote_msg_chan s idx
  refine ⟨?_, ?_, ?_, ?_, ?_, ?_, ?_, ?_, ?_, ?_, ?_, ?_, ?_⟩
  · rw [hch]
  · intro h0
    rw [hch]
    simp [h0]
  · intro b hb
    rw [hch]
    by_cases h0 : (s.info.channels idx).t.rx_len = 0
    · refine ⟨b, ?_, ?_, ?_⟩
      · simp [h0, hb]
      · simp [h0]
      · rfl
    · refine ⟨memcpy_fromio b s.mem ((s.info.channels idx).rx_payload + 4)
        (s.info.channels idx).t.rx_len, ?_, memcpy_fromio_take _ _ _ _,
        memcpy_fromio_drop _ _ _ _⟩
      simp [h0, hb]
  · rw [hch]
  · rw [hch]
  · rw [hch]
  · rw [hch]
  · rw [hch]
  · rw [hch]
  · intro b hb hlen
    have e : legacy_scpi_tx_prepare s idx =
        { s with mem := (memcpy_toio s.mem (s.info.channels idx).tx_payload b
            (s.info.channels idx).t.tx_len) } := by
      unfold legacy_scpi_tx_prepare
      simp only [hb]
      rw [if_pos hlen]
    rw [e]
    constructor
    · intro i hi
      simp [memcpy_toio, hi]
    · intro a ha
      simp only [memcpy_toio]
      rw [if_neg (by omega)]
  · intro h
    unfold legacy_scpi_tx_prepare
    dsimp only
    rcases h with h | h
    · rw [h]
    · split
      · rw [if_neg (by simp [h])]
      · rfl
  · exact tx_prepare_info s idx
  · intro env kmalloc_ok rockchip pchan ch res hres hok
    exact probe_chan_tx_payload env kmalloc_ok rockchip pchan ch res hres hok

/-- C16 amended, on a transfer in progress on channel 0 of the two-channel
instance: four bytes from offset 4 of the receive area replace the first
four bytes of the six-byte receive buffer, and the two request bytes land at
the start of the transmit area. -/
theorem legacy_scpi_payload_marshaling_witness :
    (state_xfer_pending.info.channels 0).t.rx_buf = some [9, 9, 9, 9, 9, 9] ∧
    (state_xfer_pending.info.channels 0).t.tx_buf = some [1, 2, 3] ∧
    (state_xfer_pending.info.channels 0).t.tx_len ≠ 0 ∧
    (∃ b1, ((legacy_scpi_handle_remote_msg state_xfer_pending 0).info.channels 0).t.rx_buf
        = some b1 ∧
      b1.take (state_xfer_pending.info.channels 0).t.rx_len
        = (List.range (state_xfer_pending.info.channels 0).t.rx_len).map
            (fun i => state_xfer_pending.mem
              ((state_xfer_pending.info.channels 0).rx_payload + 4 + i)) ∧
      b1.drop (state_xfer_pending.info.channels 0).t.rx_len
        = [9, 9, 9, 9, 9, 9].drop (state_xfer_pending.info.channels 0).t.rx_len) ∧
    (∀ i, i < (state_xfer_pending.info.channels 0).t.tx_len →
        (legacy_scpi_tx_prepare state_xfer_pending 0).mem
          ((state_xfer_pending.info.channels 0).tx_payload + i) = [1, 2, 3].getD i 0) :=
  ⟨rfl, rfl, by decide,
   (legacy_scpi_payload_marshaling state_xfer_pending 0).2.2.1 [9, 9, 9, 9, 9, 9] rfl,
   ((legacy_scpi_payload_marshaling state_xfer_pending 0).2.2.2.2.2.2.2.2.2.1 [1, 2, 3] rfl
     (by decide)).1⟩

/-- The receive buffer and the transmit area of that example, evaluated. -/
theorem payload_marshaling_example :
    ((legacy_scpi_handle_remote_msg state_xfer_pending 0).info.channels 0).t.rx_buf
      = some [0x1004 % 7, 0x1005 % 7, 0x1006 % 7, 0x1007 % 7, 9, 9] ∧
    (legacy_scpi_tx_prepare state_xfer_pending 0).mem 0x1100 = 1 ∧
    (legacy_scpi_tx_prepare state_xfer_pending 0).mem 0x1101 = 2 ∧
    (legacy_scpi_tx_prepare state_xfer_pending 0).mem 0x1102 = 0x1102 % 7 := by
  decide

end LegacyScpi

namespace MesonCvbs

/-- The validation loop returns `MODE_OK` when the mode is `drm_mode_equal`
to one of the entries it visits and `MODE_BAD` otherwise. -/
theorem mode_valid_loop_eq (eq : drm_display_mode → drm_display_mode → Bool)
    (mode : drm_display_mode) (l : List meson_cvbs_mode) :
    meson_cvbs_connector_mode_valid_loop eq mode l
      = if ∃ m ∈ l, eq mode m.mode = true then MODE_OK else MODE_BAD := by
  induction l with
  | nil => simp [meson_cvbs_connector_mode_valid_loop]
  | cons m rest ih =>
    unfold meson_cvbs_connector_mode_valid_loop
    by_cases h : eq mode m.mode = true
    · simp [h]
    · simp [h, ih]

/-- Every mode the duplication loop appends is a duplicate of one of the
entries it visits. -/
theorem get_modes_loop_mem (dup : Nat → drm_display_mode → Option drm_display_mode)
    (l : List meson_cvbs_mode) (i : Nat) (probed : List drm_display_mode)
    (d : drm_display_mode)
    (hd : d ∈ (meson_cvbs_connector_get_modes_loop dup i probed l).1) :
    d ∈ probed ∨ ∃ j, ∃ m ∈ l, dup j m.mode = some d := by
  induction l generalizing i probed with
  | nil =>
    left
    simpa [meson_cvbs_connector_get_modes_loop] using hd
  | cons m rest ih =>
    unfold meson_cvbs_connector_get_modes_loop at hd
    cases hdup : dup i m.mode with
    | none =>
      rw [hdup] at hd
      left
      exact hd
    | some c =>
      rw [hdup] at hd
      rcases ih (i + 1) (probed ++ [c]) hd with h | ⟨j, m1, hm1, hj⟩
      · rcases List.mem_append.1 h with h1 | h1
        · left; exact h1
        · right
          have : d = c := by simpa using h1
          subst this
          exact ⟨i, m, List.mem_cons_self _ _, hdup⟩
      · right
        exact ⟨j, m1, List.mem_cons_of_mem _ hm1, hj⟩

/-- C13: the connector accepts exactly the two table modes.  For every
comparison `drm_mode_equal` of the DRM core, `meson_cvbs_connector_mode_valid`
returns `MODE_OK` if and only if the mode is `drm_mode_equal` to the PAL entry
(720x576i) or to the NTSC entry (720x480i) of `meson_cvbs_modes`, and
`MODE_BAD` for every other mode.  Consequently, when a duplicate is
`drm_mode_equal` to the mode it was made from, every mode that
`meson_cvbs_connector_get_modes` adds to the probed list is accepted. -/
theorem meson_cvbs_mode_valid_exact
    (drm_mode_equal : drm_display_mode → drm_display_mode → Bool)
    (drm_mode_duplicate : Nat → drm_display_mode → Option drm_display_mode) :
    ∃ pal ntsc : drm_display_mode,
      meson_cvbs_modes.map (fun m => m.mode) = [pal, ntsc] ∧
      (pal.name = "720x576i" ∧ pal.hdisplay = 720 ∧ pal.vdisplay = 576 ∧ pal.vrefresh = 50) ∧
      (ntsc.name = "720x480i" ∧ ntsc.hdisplay = 720 ∧ ntsc.vdisplay = 480 ∧
        ntsc.vrefresh = 60) ∧
      (∀ mode, meson_cvbs_connector_mode_valid drm_mode_equal mode = MODE_OK ↔
        (drm_mode_equal mode pal = true ∨ drm_mode_equal mode ntsc = true)) ∧
      (∀ mode, ¬ (drm_mode_equal mode pal = true ∨ drm_mode_equal mode ntsc = true) →
        meson_cvbs_connector_mode_valid drm_mode_equal mode = MODE_BAD) ∧
      ((∀ i m d, drm_mode_duplicate i m = some d → drm_mode_equal d m = true) →
        ∀ probed d, d ∈ (meson_cvbs_connector_get_modes drm_mode_duplicate probed).1 →
          d ∈ probed ∨ meson_cvbs_connector_mode_valid drm_mode_equal d = MODE_OK) := by
  have key : ∀ mode, meson_cvbs_connector_mode_valid drm_mode_equal mode
      = if (drm_mode_equal mode (meson_cvbs_modes.getD 0 default).mode = true ∨
            drm_mode_equal mode (meson_cvbs_modes.getD 1 default).mode = true)
        then MODE_OK else MODE_BAD := by
    intro mode
    unfold meson_cvbs_connector_mode_valid
    rw [mode_valid_loop_eq]
    simp [meson_cvbs_modes]
  have hne : MODE_BAD ≠ MODE_OK := by decide
  refine ⟨(meson_cvbs_modes.getD 0 default).mode, (meson_cvbs_modes.getD 1 default).mode,
    rfl, by decide, by decide, ?_, ?_, ?_⟩
  · intro mode
    rw [key]
    constructor
    · intro h
      by_contra hc
      rw [if_neg hc] at h
      exact hne h
    · intro h
      rw [if_pos h]
  · intro mode h
    rw [key, if_neg h]
  · intro hdup probed d hd
    rcases get_modes_loop_mem drm_mode_duplicate meson_cvbs_modes 0 probed d hd with
      h | ⟨j, m, hm, hj⟩
    · left; exact h
    · right
      rw [key]
      have heq := hdup j m.mode d hj
      have hm2 : m = meson_cvbs_modes.getD 0 default ∨ m = meson_cvbs_modes.getD 1 default := by
        simpa [meson_cvbs_modes] using hm
      rcases hm2 with h1 | h1
      · rw [if_pos (Or.inl (h1 ▸ heq))]
      · rw [if_pos (Or.inr (h1 ▸ heq))]


theorem drm_mode_equal_timing_refl (m : drm_display_mode) :
    drm_mode_equal_timing m m = true := by
  unfold drm_mode_equal_timing
  simp

/-- C13, with the timing comparison and a duplication that copies: every
mode `meson_cvbs_connector_get_modes` adds to an empty probed list is
accepted by `meson_cvbs_connector_mode_valid`. -/
theorem meson_cvbs_mode_valid_exact_witness :
    (∀ i m d, drm_mode_duplicate_copy i m = some d → drm_mode_equal_timing d m = true) ∧
    ∀ d, d ∈ (meson_cvbs_connector_get_modes drm_mode_duplicate_copy []).1 →
      meson_cvbs_connector_mode_valid drm_mode_equal_timing d = MODE_OK := by
  have hdup : ∀ i m d, drm_mode_duplicate_copy i m = some d →
      drm_mode_equal_timing d m = true := by
    intro i m d h
    simp only [drm_mode_duplicate_copy, Option.some.injEq] at h
    subst h
    exact drm_mode_equal_timing_refl m
  refine ⟨hdup, ?_⟩
  intro d hd
  obtain ⟨_, _, _, _, _, _, _, h⟩ :=
    meson_cvbs_mode_valid_exact drm_mode_equal_timing drm_mode_duplicate_copy
  rcases h hdup [] d hd with h1 | h1
  · simp at h1
  · exact h1

/-- The connector on concrete inputs: both table modes are duplicated and
the call returns 2; a failing first duplication returns 0 and adds nothing;
the NTSC entry is accepted, a 1280x720 mode is not. -/
theorem meson_cvbs_connector_example :
    meson_cvbs_connector_get_modes drm_mode_duplicate_copy []
      = (meson_cvbs_modes.map (fun m => m.mode), 2) ∧
    meson_cvbs_connector_get_modes (fun _ _ => none) [] = ([], 0) ∧
    meson_cvbs_connector_mode_valid drm_mode_equal_timing
      (meson_cvbs_modes.getD 1 default).mode = MODE_OK ∧
    meson_cvbs_connector_mode_valid drm_mode_equal_timing
      (DRM_MODE "1280x720" DRM_MODE_TYPE_DRIVER 74250 1280 1390 1430 1650 0 720 725 730 750 0 0)
      = MODE_BAD := by
  decide

/-- C14, the failing input: allocation and encoder initialisation succeed
and `drm_connector_init` fails with `-ENOMEM`.  The value
`drm_connector_init` returns is not stored, the test that follows the call
reads the result of `drm_encoder_init`, so `meson_cvbs_create` logs nothing
and returns 0; this holds for every value `drm_connector_init` returns. -/
theorem meson_cvbs_create_ignores_connector_init :
    (meson_cvbs_create (env_connector_fails (-12))).2 = 0 ∧
    (meson_cvbs_create (env_connector_fails (-12))).1.errors = [] ∧
    "drm_connector_init" ∈ (meson_cvbs_create (env_connector_fails (-12))).1.calls ∧
    ∀ e : Int, (meson_cvbs_create (env_connector_fails e)).2 = 0 := by
  refine ⟨by decide, by decide, by decide, ?_⟩
  intro e
  simp [meson_cvbs_create, drm_encoder_init, drm_connector_init, env_connector_fails]

/-- What holds of `meson_cvbs_create`: it returns `-ENOMEM` when the
allocation fails and the error of `drm_encoder_init` when that fails; it
returns 0 exactly when the allocation and the encoder initialisation
succeeded. -/
theorem meson_cvbs_create_ret (env : create_env) :
    (env.kzalloc_ok = false → (meson_cvbs_create env).2 = -ENOMEM) ∧
    (env.kzalloc_ok = true → env.encoder_init_ret ≠ 0 →
      (meson_cvbs_create env).2 = env.encoder_init_ret) ∧
    ((meson_cvbs_create env).2 = 0 ↔ (env.kzalloc_ok = true ∧ env.encoder_init_ret = 0)) := by
  cases hk : env.kzalloc_ok <;> by_cases he : env.encoder_init_ret = 0 <;>
    simp [meson_cvbs_create, drm_encoder_init, drm_connector_init, hk, he, ENOMEM]

end MesonCvbs

namespace TimerSp804

/-- Clockevent set-up only appends to the register log. -/
theorem clockevents_init_log (env : of_env) (st : sp804_state) (sp804 : timer_sp804) :
    ∃ rest, (__sp804_clockevents_init env st sp804).log = st.log ++ rest := by
  unfold __sp804_clockevents_init
  dsimp only
  split
  · exact ⟨[], by simp⟩
  · split_ifs
    · exact ⟨[], by simp⟩
    · dsimp only [writel]
      simp only [List.append_assoc]
      exact ⟨_, rfl⟩

/-- Clocksource set-up only appends to the register log. -/
theorem clocksource_init_log (env : of_env) (st : sp804_state) (sp804 : timer_sp804)
    (use_sched_clock : Bool) :
    ∃ rest, (__sp804_clocksource_and_sched_clock_init env st sp804 use_sched_clock).log
      = st.log ++ rest := by
  unfold __sp804_clocksource_and_sched_clock_init
  dsimp only
  split
  · exact ⟨[], by simp⟩
  · rename_i clk0 c heq
    by_cases hr : sp804_get_clock_rate c < 0
    · rw [if_pos hr]
      exact ⟨[], by simp⟩
    · rw [if_neg hr]
      split_ifs <;>
        (dsimp only [writel]
         simp only [List.append_assoc]
         exact ⟨_, rfl⟩)

/-- The two set-up routines, run one after the other, only append to the
register log. -/
theorem init_pair_log (env : of_env) (st : sp804_state) (sp804 : timer_sp804)
    (use_sched_clock : Bool) :
    (__sp804_clocksource_and_sched_clock_init env (__sp804_clockevents_init env st sp804)
        sp804 use_sched_clock).log
      = st.log ++ ((__sp804_clocksource_and_sched_clock_init env
          (__sp804_clockevents_init env st sp804) sp804 use_sched_clock).log.drop
            st.log.length) := by
  obtain ⟨r1, h1⟩ := clockevents_init_log env st sp804
  obtain ⟨r2, h2⟩ := clocksource_init_log env (__sp804_clockevents_init env st sp804) sp804
    use_sched_clock
  rw [h2, h1, List.append_assoc, List.drop_left]

/-- C17: on every call of `sp804_of_init` in which the register mapping
succeeds, the register accesses the call makes start with a write of 0 to
the control register of timer 1 (`base + 0x08`) followed by a write of 0 to
the control register of timer 2 (`base + 0x20 + 0x08`), whatever the state
of `initialized`, the availability of the node, the interrupt lookup and
every other outcome are.  A call whose mapping fails makes no register
access. -/
theorem sp804_of_init_disables_timers (env : of_env) (st : sp804_state) :
    (∀ base, env.iomap = some base →
      ∃ rest, (sp804_of_init env st).log
        = st.log ++ (reg_access.writel 0 (base + 0x08) ::
            reg_access.writel 0 (base + 0x20 + 0x08) :: rest)) ∧
    (env.iomap = none → (sp804_of_init env st).log = st.log) := by
  constructor
  · intro base hbase
    unfold sp804_of_init
    rw [hbase]
    dsimp only [writel]
    by_cases h1 : st.initialized = true ∨ (!env.available) = true
    · rw [if_pos h1]
      exact ⟨[], by simp [iounmap, TIMER_CTRL, TIMER_2_BASE]⟩
    · rw [if_neg h1]
      by_cases h2 : env.irq ≤ 0
      · rw [if_pos h2]
        exact ⟨[], by simp [iounmap, TIMER_CTRL, TIMER_2_BASE]⟩
      · rw [if_neg h2]
        dsimp only
        rw [init_pair_log]
        dsimp only
        simp only [List.append_assoc, List.singleton_append, TIMER_CTRL, TIMER_2_BASE]
        exact ⟨_, rfl⟩
  · intro h
    unfold sp804_of_init
    rw [h]


/-- C17, on a node mapped at `0x9000` and a driver that is already
initialised: the call still starts with the two writes of 0. -/
theorem sp804_of_init_disables_timers_witness :
    of_env_ok.iomap = some 0x9000 ∧
    ∃ rest, (sp804_of_init of_env_ok { sp804_state_init with initialized := true }).log
      = ({ sp804_state_init with initialized := true } : sp804_state).log ++
        (reg_access.writel 0 (0x9000 + 0x08) :: reg_access.writel 0 (0x9000 + 0x20 + 0x08) :: rest) :=
  ⟨rfl, (sp804_of_init_disables_timers of_env_ok
    { sp804_state_init with initialized := true }).1 0x9000 rfl⟩

/-- The register accesses of a first initialisation of that node, and of a
second call once the driver is initialised. -/
theorem sp804_of_init_example :
    (sp804_of_init of_env_ok sp804_state_init).log
      = [.writel 0 0x9008, .writel 0 0x9028,
         .writel 0 0x9008,
         .writel 0 0x9028, .writel 0xffffffff 0x9020, .writel 0xffffffff 0x9024,
         .writel 0xc2 0x9028] ∧
    (sp804_of_init of_env_ok sp804_state_init).initialized = true ∧
    (sp804_of_init of_env_ok (sp804_of_init of_env_ok sp804_state_init)).log
      = (sp804_of_init of_env_ok sp804_state_init).log ++
          [.writel 0 0x9008, .writel 0 0x9028] ∧
    (sp804_of_init of_env_ok (sp804_of_init of_env_ok sp804_state_init)).unmapped = [0x9000] := by
  decide

end TimerSp804
